import Mathlib

/-!
Verification of the usage-metered subscription subsystem of the
AgriManagement repository.

The development shallowly embeds the plan catalog and usage helpers of
src/lib/stripe.ts and src/lib/subscription.ts, the webhook reconciler of
src/app/api/stripe/webhook/route.ts, and the two metered API endpoints
(src/app/api/ocr/route.ts, src/app/api/ai-assistant/route.ts).  Database
tables are embedded as association lists inside an explicit state record;
JavaScript numbers holding Infinity are embedded as an extended-number
type; the Date arithmetic of getCurrentPeriodStart composed with
toISOString is embedded through epoch day numbers.
-/

-- ====================================================================
-- Plan catalog (src/lib/stripe.ts)
-- ====================================================================

/-- PlanType from src/lib/stripe.ts: free, standard, premium, pro_yearly. -/
inductive PlanType
  | free
  | standard
  | premium
  | pro_yearly
deriving DecidableEq

/-- UsageFeature from src/lib/stripe.ts: ocr, export, ai_assistant.
The export member is written with a trailing apostrophe because the bare
word is a Lean keyword. -/
inductive UsageFeature
  | ocr
  | export'
  | ai_assistant
deriving DecidableEq

/-- Extended number embedding a JavaScript number that is either a finite
integer or Infinity, as used by the limit fields of PLAN_LIMITS. -/
inductive ENum
  | fin (n : Int)
  | inf
deriving DecidableEq

/-- PlanLimits from src/lib/stripe.ts. -/
structure PlanLimits where
  ocrLimit : ENum
  exportLimit : ENum
  aiAssistantLimit : ENum
deriving DecidableEq

/-- PLAN_LIMITS from src/lib/stripe.ts: free has 50 / 3 / 10, every paid
tier has Infinity for each feature. -/
def PLAN_LIMITS : PlanType → PlanLimits
  | .free => ⟨.fin 50, .fin 3, .fin 10⟩
  | .standard => ⟨.inf, .inf, .inf⟩
  | .premium => ⟨.inf, .inf, .inf⟩
  | .pro_yearly => ⟨.inf, .inf, .inf⟩

/-- isFreePlan from src/lib/stripe.ts. -/
def isFreePlan (planType : PlanType) : Bool :=
  planType == PlanType.free

/-- isPaidPlan from src/lib/stripe.ts. -/
def isPaidPlan (planType : PlanType) : Bool :=
  planType != PlanType.free

/-- getFeatureLimit from src/lib/stripe.ts: switch over the feature. -/
def getFeatureLimit (planType : PlanType) (feature : UsageFeature) : ENum :=
  let limits := PLAN_LIMITS planType
  match feature with
  | .ocr => limits.ocrLimit
  | .export' => limits.exportLimit
  | .ai_assistant => limits.aiAssistantLimit

/-- PRICE_ID_TO_PLAN from src/lib/stripe.ts, with the STRIPE_PRICE_IDS
fallback identifiers used when the environment variables are unset.
Lookup of an absent key yields none, matching the undefined-or-null
result of the record lookup composed with the null fallback in
getPlanTypeFromPriceId. -/
def PRICE_ID_TO_PLAN (priceId : String) : Option PlanType :=
  if priceId == "price_standard_monthly" then some PlanType.standard
  else if priceId == "price_premium_monthly" then some PlanType.premium
  else if priceId == "price_pro_yearly" then some PlanType.pro_yearly
  else none

-- ====================================================================
-- Database state (tables subscriptions and usage_tracking of
-- src/supabase/stripe-schema.sql)
-- ====================================================================

/-- Row status values of the subscriptions table. -/
inductive SubStatus
  | active
  | canceled
  | past_due
  | trialing
deriving DecidableEq

/-- A row of the subscriptions table.  Timestamps are embedded as
integers; the stored ISO strings of the period bounds are embedded by the
underlying millisecond values. -/
structure SubRow where
  userId : String
  stripeCustomerId : Option String
  stripeSubscriptionId : Option String
  planType : PlanType
  status : SubStatus
  currentPeriodStart : Option Int
  currentPeriodEnd : Option Int
  updatedAt : Int
deriving DecidableEq

/-- A row of the usage_tracking table.  The period_start column holds the
YYYY-MM-DD string computed by formatDateForDatabase. -/
structure UsageRow where
  id : Nat
  userId : String
  ocrCount : Nat
  exportCount : Nat
  aiAssistantCount : Nat
  periodStart : String
deriving DecidableEq

/-- The embedded database: the two tables together with the id counter
used to give inserted usage rows fresh primary keys. -/
structure DBState where
  subs : List SubRow
  usage : List UsageRow
  nextId : Nat
deriving DecidableEq

/-- Result of a select with the single modifier: some row when exactly
one row matches, none otherwise (zero matches produce the PGRST116 error
that each caller maps to its not-found branch; more than one match cannot
happen under the unique constraints of stripe-schema.sql). -/
def selectSingle {α : Type} (p : α → Bool) (l : List α) : Option α :=
  match l.filter p with
  | [a] => some a
  | _ => none

/-- Well-formedness matching the schema constraints of
src/supabase/stripe-schema.sql: usage ids are primary keys below the
fresh-id counter, the pair of user_id and period_start is unique on
usage_tracking, and user_id is unique on subscriptions. -/
def WF (s : DBState) : Prop :=
  (s.usage.map (fun r => r.id)).Nodup ∧
  (s.usage.map (fun r => (r.userId, r.periodStart))).Nodup ∧
  (∀ r ∈ s.usage, r.id < s.nextId) ∧
  (s.subs.map (fun r => r.userId)).Nodup

instance (s : DBState) : Decidable (WF s) := by
  unfold WF; infer_instance

-- ====================================================================
-- Usage helpers (src/lib/subscription.ts)
-- ====================================================================

/-- getUserSubscription from src/lib/subscription.ts: select the single
subscriptions row of the user, none when absent. -/
def getUserSubscription (s : DBState) (userId : String) : Option SubRow :=
  selectSingle (fun r => r.userId == userId) s.subs

/-- getUserPlanType from src/lib/subscription.ts: the plan of the
subscription row, free when no row exists. -/
def getUserPlanType (s : DBState) (userId : String) : PlanType :=
  match getUserSubscription s userId with
  | some sub => sub.planType
  | none => PlanType.free

/-- Predicate selecting the usage row of a user for a period key. -/
def usageKeyMatch (userId key : String) (r : UsageRow) : Bool :=
  r.userId == userId && r.periodStart == key

/-- getOrCreateUsageRecord from src/lib/subscription.ts: return the
existing row for the user and the current period key, otherwise insert a
fresh all-zero row.  The period key string argument stands for
formatDateForDatabase applied to getCurrentPeriodStart, modeled
separately through epoch days below. -/
def getOrCreateUsageRecord (s : DBState) (userId key : String) :
    UsageRow × DBState :=
  match selectSingle (usageKeyMatch userId key) s.usage with
  | some r => (r, s)
  | none =>
      let r : UsageRow := ⟨s.nextId, userId, 0, 0, 0, key⟩
      (r, { s with usage := s.usage ++ [r], nextId := s.nextId + 1 })

/-- The per-feature counter of a usage row, as read by the switch
statements of checkUsageLimit and incrementUsage. -/
def featureCount (r : UsageRow) : UsageFeature → Nat
  | .ocr => r.ocrCount
  | .export' => r.exportCount
  | .ai_assistant => r.aiAssistantCount

/-- Writing one feature counter of a usage row, as done by the dynamic
column update of incrementUsage; the other columns are untouched. -/
def setFeatureCount (r : UsageRow) (f : UsageFeature) (n : Nat) : UsageRow :=
  match f with
  | .ocr => { r with ocrCount := n }
  | .export' => { r with exportCount := n }
  | .ai_assistant => { r with aiAssistantCount := n }

/-- The JavaScript comparison currentUsage < limit where limit may be
Infinity. -/
def enumLtNat (n : Nat) : ENum → Bool
  | .fin m => (n : Int) < m
  | .inf => true

/-- The JavaScript expression Math.max of 0 and limit - currentUsage
where limit may be Infinity. -/
def enumRemaining : ENum → Nat → ENum
  | .fin m, n => .fin (max 0 (m - (n : Int)))
  | .inf, _ => .inf

/-- Subtracting 1 from a JavaScript number that may be Infinity, used by
the locally computed response snapshots of the metered endpoints. -/
def enumPred : ENum → ENum
  | .fin m => .fin (m - 1)
  | .inf => .inf

/-- UsageLimitCheckResult from src/lib/subscription.ts. -/
structure UsageCheck where
  allowed : Bool
  currentUsage : Nat
  limit : ENum
  remaining : ENum
  planType : PlanType
deriving DecidableEq

/-- checkUsageLimit from src/lib/subscription.ts: paid plans are always
allowed with Infinity limits and no ledger access; the free plan reads or
creates the monthly row and compares the counter with the catalog
limit. -/
def checkUsageLimit (s : DBState) (userId key : String)
    (feature : UsageFeature) : UsageCheck × DBState :=
  if !(isFreePlan (getUserPlanType s userId)) then
    (⟨true, 0, .inf, .inf, getUserPlanType s userId⟩, s)
  else
    (⟨enumLtNat (featureCount (getOrCreateUsageRecord s userId key).1 feature)
        (getFeatureLimit (getUserPlanType s userId) feature),
      featureCount (getOrCreateUsageRecord s userId key).1 feature,
      getFeatureLimit (getUserPlanType s userId) feature,
      enumRemaining (getFeatureLimit (getUserPlanType s userId) feature)
        (featureCount (getOrCreateUsageRecord s userId key).1 feature),
      getUserPlanType s userId⟩,
     (getOrCreateUsageRecord s userId key).2)

/-- incrementUsage from src/lib/subscription.ts: fetch or create the
monthly row, then update the single feature column of the row with that
id to the fetched value plus one. -/
def incrementUsage (s : DBState) (userId key : String)
    (feature : UsageFeature) : DBState :=
  let row := (getOrCreateUsageRecord s userId key).1
  let s' := (getOrCreateUsageRecord s userId key).2
  let newCount := featureCount row feature + 1
  { s' with usage := s'.usage.map (fun r =>
      if r.id == row.id then setFeatureCount r feature newCount else r) }

/-- incrementUsage together with the possibility that the column update
write fails: the error is thrown after the fetch-or-create step, so the
caller that catches it observes the state produced by that step. -/
def incrementUsageTry (updateFails : Bool) (s : DBState)
    (userId key : String) (feature : UsageFeature) : DBState :=
  if updateFails then (getOrCreateUsageRecord s userId key).2
  else incrementUsage s userId key feature

/-- MonthlyUsage from src/lib/subscription.ts, one entry per feature. -/
structure MonthlyUsage where
  ocrUsed : Nat
  ocrLimit : ENum
  ocrRemaining : ENum
  exportUsed : Nat
  exportLimit : ENum
  exportRemaining : ENum
  aiUsed : Nat
  aiLimit : ENum
  aiRemaining : ENum
  periodStart : String
  planType : PlanType
deriving DecidableEq

/-- getMonthlyUsage from src/lib/subscription.ts. -/
def getMonthlyUsage (s : DBState) (userId key : String) :
    MonthlyUsage × DBState :=
  (⟨(getOrCreateUsageRecord s userId key).1.ocrCount,
    (PLAN_LIMITS (getUserPlanType s userId)).ocrLimit,
    enumRemaining (PLAN_LIMITS (getUserPlanType s userId)).ocrLimit
      (getOrCreateUsageRecord s userId key).1.ocrCount,
    (getOrCreateUsageRecord s userId key).1.exportCount,
    (PLAN_LIMITS (getUserPlanType s userId)).exportLimit,
    enumRemaining (PLAN_LIMITS (getUserPlanType s userId)).exportLimit
      (getOrCreateUsageRecord s userId key).1.exportCount,
    (getOrCreateUsageRecord s userId key).1.aiAssistantCount,
    (PLAN_LIMITS (getUserPlanType s userId)).aiAssistantLimit,
    enumRemaining (PLAN_LIMITS (getUserPlanType s userId)).aiAssistantLimit
      (getOrCreateUsageRecord s userId key).1.aiAssistantCount,
    (getOrCreateUsageRecord s userId key).1.periodStart,
    getUserPlanType s userId⟩,
   (getOrCreateUsageRecord s userId key).2)

/-- Observation function: the stored counter of a user, period key and
feature, zero when no row exists. -/
def counterOf (s : DBState) (userId key : String) (f : UsageFeature) : Nat :=
  match s.usage.find? (usageKeyMatch userId key) with
  | some r => featureCount r f
  | none => 0

/-- Iterated incrementUsage: the state after n successful increments of
one feature for one user in one period. -/
def iterInc (s : DBState) (userId key : String) (f : UsageFeature) :
    Nat → DBState
  | 0 => s
  | n + 1 => incrementUsage (iterInc s userId key f n) userId key f

-- ====================================================================
-- Stripe webhook reconciler (src/app/api/stripe/webhook/route.ts)
-- ====================================================================

/-- JavaScript truthiness of a string-or-undefined value: undefined and
the empty string are falsy. -/
def strTruthy : Option String → Bool
  | none => false
  | some s => !(s == "")

/-- JavaScript String.prototype.trim: strip leading and trailing
whitespace, written on the character list so that it evaluates. -/
def strTrim (s : String) : String :=
  String.mk (((s.toList.dropWhile Char.isWhitespace).reverse.dropWhile
    Char.isWhitespace).reverse)

/-- The JavaScript or-else of two string-or-undefined values, as used by
the metadata fallback of handleCheckoutCompleted. -/
def jsOrStr (a b : Option String) : Option String :=
  match a with
  | some s => if s == "" then b else some s
  | none => b

/-- The subscription object of the Stripe API as read by the handlers:
id, the supabase_user_id metadata entry, the price id of the first item,
the customer reference collapsed to its id string, the processor status
string, the period bounds in unix seconds, and cancel_at_period_end. -/
structure StripeSub where
  id : String
  metadataUserId : Option String
  priceId : Option String
  customer : Option String
  status : String
  currentPeriodStart : Int
  currentPeriodEnd : Int
  cancelAtPeriodEnd : Bool
deriving DecidableEq

/-- The checkout session object as read by handleCheckoutCompleted: the
subscription reference and the customer reference collapsed to id
strings, plus the supabase_user_id metadata entry. -/
structure CheckoutSession where
  id : String
  subscription : Option String
  metadataUserId : Option String
  customer : Option String
deriving DecidableEq

/-- The invoice object as read by handlePaymentFailed. -/
structure StripeInvoice where
  id : String
  subscription : Option String
deriving DecidableEq

/-- The event kinds dispatched by the webhook switch; otherEvent covers
every unhandled type string. -/
inductive StripeEventData
  | checkoutCompleted (session : CheckoutSession)
  | subscriptionUpdated (sub : StripeSub)
  | subscriptionDeleted (sub : StripeSub)
  | paymentFailed (invoice : StripeInvoice)
  | otherEvent
deriving DecidableEq

/-- The external Stripe API as seen by handleCheckoutCompleted: the
subscriptions retrieve call, assumed to answer with the subscription
snapshot held by the processor. -/
structure StripeEnv where
  retrieve : String → StripeSub

/-- getPlanTypeFromPriceId from the webhook route: PRICE_ID_TO_PLAN
lookup with null fallback. -/
def getPlanTypeFromPriceId (priceId : String) : Option PlanType :=
  PRICE_ID_TO_PLAN priceId

/-- The expression priceId then getPlanTypeFromPriceId else null that
each handler applies to the optional first-item price id. -/
def jsPriceToPlan (priceId : Option String) : Option PlanType :=
  match priceId with
  | some p => if p == "" then none else getPlanTypeFromPriceId p
  | none => none

/-- The status mapping of handleSubscriptionUpdated from processor
status strings to the local status enum. -/
def mapStripeStatus (st : String) : SubStatus :=
  if st == "canceled" || st == "incomplete_expired" then .canceled
  else if st == "past_due" || st == "unpaid" then .past_due
  else if st == "trialing" then .trialing
  else .active

/-- upsertSubscription from src/lib/subscription.ts: upsert on the
unique user_id key, writing every column of the row. -/
def upsertSubscription (s : DBState) (now : Int)
    (userId stripeCustomerId stripeSubscriptionId : String)
    (planType : PlanType) (status : SubStatus)
    (currentPeriodStart currentPeriodEnd : Int) : DBState :=
  { s with subs :=
      if s.subs.any (fun r => r.userId == userId) then
        s.subs.map (fun r =>
          if r.userId == userId then
            SubRow.mk userId (some stripeCustomerId)
              (some stripeSubscriptionId) planType status
              (some currentPeriodStart) (some currentPeriodEnd) now
          else r)
      else
        s.subs ++ [SubRow.mk userId (some stripeCustomerId)
          (some stripeSubscriptionId) planType status
          (some currentPeriodStart) (some currentPeriodEnd) now] }

/-- cancelSubscription from src/lib/subscription.ts: set status canceled
on every row whose stripe_subscription_id matches. -/
def cancelSubscription (s : DBState) (now : Int)
    (stripeSubscriptionId : String) : DBState :=
  { s with subs := s.subs.map (fun r =>
      if r.stripeSubscriptionId == some stripeSubscriptionId then
        { r with status := SubStatus.canceled, updatedAt := now }
      else r) }

/-- revertToFreePlan from src/lib/subscription.ts: set the plan to free
with active status and clear the subscription reference and the period
bounds on every row whose stripe_subscription_id matches. -/
def revertToFreePlan (s : DBState) (now : Int)
    (stripeSubscriptionId : String) : DBState :=
  { s with subs := s.subs.map (fun r =>
      if r.stripeSubscriptionId == some stripeSubscriptionId then
        { r with planType := PlanType.free, status := SubStatus.active,
                 stripeSubscriptionId := none, currentPeriodStart := none,
                 currentPeriodEnd := none, updatedAt := now }
      else r) }

/-- handleCheckoutCompleted from the webhook route: bail out without a
write when the subscription id, the metadata user id or the plan lookup
is missing, otherwise upsert the active subscription. -/
def handleCheckoutCompleted (env : StripeEnv) (now : Int) (s : DBState)
    (session : CheckoutSession) : DBState :=
  if !(strTruthy session.subscription) then s
  else if !(strTruthy (jsOrStr
      (env.retrieve (session.subscription.getD "")).metadataUserId
      session.metadataUserId)) then s
  else
    match jsPriceToPlan
        (env.retrieve (session.subscription.getD "")).priceId with
    | none => s
    | some planType =>
        upsertSubscription s now
          ((jsOrStr (env.retrieve
              (session.subscription.getD "")).metadataUserId
            session.metadataUserId).getD "")
          (session.customer.getD "")
          (session.subscription.getD "") planType .active
          ((env.retrieve (session.subscription.getD "")).currentPeriodStart
            * 1000)
          ((env.retrieve (session.subscription.getD "")).currentPeriodEnd
            * 1000)

/-- handleSubscriptionUpdated from the webhook route.  When the metadata
user id is absent the row is looked up through the single-row select on
stripe_subscription_id; unknown price ids bail out without a write;
otherwise the row is upserted with the recomputed plan and status. -/
def handleSubscriptionUpdated (now : Int) (s : DBState)
    (sub : StripeSub) : DBState :=
  if !(strTruthy sub.metadataUserId) then
    match selectSingle
        (fun r => r.stripeSubscriptionId == some sub.id) s.subs with
    | none => s
    | some row =>
        if row.userId == "" then s
        else
          match jsPriceToPlan sub.priceId with
          | none => s
          | some planType =>
              upsertSubscription s now row.userId (sub.customer.getD "")
                sub.id planType (mapStripeStatus sub.status)
                (sub.currentPeriodStart * 1000) (sub.currentPeriodEnd * 1000)
  else
    match jsPriceToPlan sub.priceId with
    | none => s
    | some planType =>
        upsertSubscription s now (sub.metadataUserId.getD "")
          (sub.customer.getD "") sub.id planType
          (mapStripeStatus sub.status)
          (sub.currentPeriodStart * 1000) (sub.currentPeriodEnd * 1000)

/-- handleSubscriptionDeleted from the webhook route: always cancel the
matching row, and additionally revert to the free plan when the deletion
was immediate rather than a cancellation at period end. -/
def handleSubscriptionDeleted (now : Int) (s : DBState)
    (sub : StripeSub) : DBState :=
  let s1 := cancelSubscription s now sub.id
  if !sub.cancelAtPeriodEnd then revertToFreePlan s1 now sub.id else s1

/-- handlePaymentFailed from the webhook route: set status past_due on
the rows whose stripe_subscription_id matches the invoice, bailing out
when the invoice carries no subscription id. -/
def handlePaymentFailed (now : Int) (s : DBState)
    (invoice : StripeInvoice) : DBState :=
  if !(strTruthy invoice.subscription) then s
  else
    let subscriptionId := invoice.subscription.getD ""
    { s with subs := s.subs.map (fun r =>
        if r.stripeSubscriptionId == some subscriptionId then
          { r with status := SubStatus.past_due, updatedAt := now }
        else r) }

/-- The event dispatch switch of the webhook POST handler. -/
def applyEvent (env : StripeEnv) (now : Int) (s : DBState) :
    StripeEventData → DBState
  | .checkoutCompleted session => handleCheckoutCompleted env now s session
  | .subscriptionUpdated sub => handleSubscriptionUpdated now s sub
  | .subscriptionDeleted sub => handleSubscriptionDeleted now s sub
  | .paymentFailed invoice => handlePaymentFailed now s invoice
  | .otherEvent => s

/-- A webhook request: the raw body and the stripe-signature header. -/
structure WebhookReq where
  body : String
  signature : Option String
deriving DecidableEq

/-- The webhook environment: the Stripe API and the signature
verification of verifyStripeWebhook, where none stands for a thrown
verification error (bad signature or missing webhook secret). -/
structure WebhookEnv where
  stripeEnv : StripeEnv
  verify : String → String → Option StripeEventData

/-- The POST handler of the webhook route: missing signature header and
failed verification answer 400 before any state access; a verified event
is dispatched and acknowledged with 200. -/
def webhookPOST (env : WebhookEnv) (now : Int) (s : DBState)
    (req : WebhookReq) : Nat × DBState :=
  match req.signature with
  | none => (400, s)
  | some sig =>
      match env.verify req.body sig with
      | none => (400, s)
      | some event => (200, applyEvent env.stripeEnv now s event)

-- ====================================================================
-- Metered feature endpoints (src/app/api/ocr/route.ts and
-- src/app/api/ai-assistant/route.ts)
-- ==================================================================/-- The usageInfo object of the endpoint responses. -/
structure UsageSnapshot where
  currentUsage : Nat
  limit : ENum
  remaining : ENum
  planType : PlanType
deriving DecidableEq

/-- The usageInfo returned by a successful metered call: the pre-call
check snapshot advanced locally by one use, with no second ledger
read. -/
def localSnapshot (c : UsageCheck) : UsageSnapshot :=
  ⟨c.currentUsage + 1, c.limit, enumPred c.remaining, c.planType⟩

/-- Responses of the two metered endpoints, keeping the status category
and the usage information relevant to metering. -/
inductive EndpointResp
  | unauthorized
  | quotaExceeded (info : UsageCheck)
  | badRequest
  | serverErr
  | apiErr (status : Nat)
  | ok (info : UsageSnapshot)
deriving DecidableEq

/-- Environment of the OCR endpoint: the authenticated user if any,
whether request.json succeeds, the imageBase64 field of the parsed
body, whether OPENAI_API_KEY is set, whether the vision call throws and
with which status, the content of the first choice when it returns, and
whether a JSON object could be extracted from the reply. -/
structure OcrEnv where
  authUser : Option String
  bodyParses : Bool
  imageBase64 : Option String
  openaiKeySet : Bool
  apiThrows : Option (Option Nat)
  content : Option String
  parsedOk : Bool
deriving DecidableEq

/-- The catch-block status mapping of the OCR endpoint: 401 and 429 are
forwarded, everything else becomes 500. -/
def ocrCatchStatus (st : Option Nat) : Nat :=
  if st == some 401 then 401 else if st == some 429 then 429 else 500

/-- POST of src/app/api/ocr/route.ts: authenticate, check the usage
limit, validate the body and the image, call the vision API and parse
its reply, then increment the usage counter best-effort, with a thrown
increment error caught and logged only, and answer with the locally
advanced snapshot.  The updateFails flag says whether the ledger update
write fails. -/
def ocrPOST (env : OcrEnv) (updateFails : Bool) (key : String)
    (s : DBState) : EndpointResp × DBState :=
  if env.authUser.isSome = false then (.unauthorized, s)
  else if (checkUsageLimit s (env.authUser.getD "") key
      UsageFeature.ocr).1.allowed = false then
    (.quotaExceeded (checkUsageLimit s (env.authUser.getD "") key
        UsageFeature.ocr).1,
     (checkUsageLimit s (env.authUser.getD "") key UsageFeature.ocr).2)
  else if env.bodyParses = false then
    (.serverErr,
     (checkUsageLimit s (env.authUser.getD "") key UsageFeature.ocr).2)
  else if strTruthy env.imageBase64 = false then
    (.badRequest,
     (checkUsageLimit s (env.authUser.getD "") key UsageFeature.ocr).2)
  else if env.openaiKeySet = false then
    (.serverErr,
     (checkUsageLimit s (env.authUser.getD "") key UsageFeature.ocr).2)
  else if env.apiThrows.isSome = true then
    (.apiErr (ocrCatchStatus (env.apiThrows.getD none)),
     (checkUsageLimit s (env.authUser.getD "") key UsageFeature.ocr).2)
  else if env.content.isSome = false then
    (.serverErr,
     (checkUsageLimit s (env.authUser.getD "") key UsageFeature.ocr).2)
  else if env.parsedOk = false then
    (.serverErr,
     (checkUsageLimit s (env.authUser.getD "") key UsageFeature.ocr).2)
  else
    (.ok (localSnapshot (checkUsageLimit s (env.authUser.getD "") key
        UsageFeature.ocr).1),
     incrementUsageTry updateFails
       ((checkUsageLimit s (env.authUser.getD "") key UsageFeature.ocr).2)
       (env.authUser.getD "") key UsageFeature.ocr)

/-- Environment of the AI assistant endpoint: the authenticated user,
whether request.json succeeds, the message field of the parsed body,
whether OPENAI_API_KEY is set, whether the chat call throws, and the
reply content.  The business-data fetch is read-only over sales and
expenses and its failure is swallowed, so it does not touch this
state. -/
structure AiEnv where
  authUser : Option String
  bodyParses : Bool
  message : Option String
  openaiKeySet : Bool
  apiThrows : Option (Option Nat)
  content : Option String
deriving DecidableEq

/-- The catch-block status mapping of the AI assistant endpoint: 429 is
forwarded, everything else becomes 500. -/
def aiCatchStatus (st : Option Nat) : Nat :=
  if st == some 429 then 429 else 500

/-- POST of src/app/api/ai-assistant/route.ts: authenticate, check the
usage limit, validate the message, call the chat API, then increment
the usage counter best-effort, with a thrown increment error caught and
logged only, and answer with the locally advanced snapshot. -/
def aiPOST (env : AiEnv) (updateFails : Bool) (key : String)
    (s : DBState) : EndpointResp × DBState :=
  if env.authUser.isSome = false then (.unauthorized, s)
  else if (checkUsageLimit s (env.authUser.getD "") key
      UsageFeature.ai_assistant).1.allowed = false then
    (.quotaExceeded (checkUsageLimit s (env.authUser.getD "") key
        UsageFeature.ai_assistant).1,
     (checkUsageLimit s (env.authUser.getD "") key
        UsageFeature.ai_assistant).2)
  else if env.bodyParses = false then
    (.serverErr,
     (checkUsageLimit s (env.authUser.getD "") key
        UsageFeature.ai_assistant).2)
  else if (strTrim (env.message.getD "")).length = 0 then
    (.badRequest,
     (checkUsageLimit s (env.authUser.getD "") key
        UsageFeature.ai_assistant).2)
  else if 1000 < (env.message.getD "").length then
    (.badRequest,
     (checkUsageLimit s (env.authUser.getD "") key
        UsageFeature.ai_assistant).2)
  else if env.openaiKeySet = false then
    (.serverErr,
     (checkUsageLimit s (env.authUser.getD "") key
        UsageFeature.ai_assistant).2)
  else if env.apiThrows.isSome = true then
    (.apiErr (aiCatchStatus (env.apiThrows.getD none)),
     (checkUsageLimit s (env.authUser.getD "") key
        UsageFeature.ai_assistant).2)
  else if env.content.isSome = false then
    (.serverErr,
     (checkUsageLimit s (env.authUser.getD "") key
        UsageFeature.ai_assistant).2)
  else
    (.ok (localSnapshot (checkUsageLimit s (env.authUser.getD "") key
        UsageFeature.ai_assistant).1),
     incrementUsageTry updateFails
       ((checkUsageLimit s (env.authUser.getD "") key
          UsageFeature.ai_assistant).2)
       (env.authUser.getD "") key UsageFeature.ai_assistant)

-- ====================================================================
-- Period key dates (getCurrentPeriodStart and formatDateForDatabase of
-- src/lib/subscription.ts)
-- ====================================================================

/-- Days from 1970-01-01 to the civil date given by year, month and day,
through the standard era decomposition of the proleptic Gregorian
calendar.  This is the day-number arithmetic underlying the JavaScript
Date value for a given calendar date. -/
def epochDay (y m d : Nat) : Int :=
  let yAdj := if m ≤ 2 then y - 1 else y
  let era := yAdj / 400
  let yoe := yAdj - era * 400
  let doy := (153 * (if 2 < m then m - 3 else m + 9) + 2) / 5 + d - 1
  let doe := yoe * 365 + yoe / 4 - yoe / 100 + doy
  (era * 146097 + doe : Int) - 719468

/-- The epoch day written into the period_start column for a call made
in month m of year y by an environment whose local clock runs off
minutes ahead of UTC: getCurrentPeriodStart builds local midnight on the
first of the month, and toISOString inside formatDateForDatabase takes
the calendar date of the same instant in UTC, that is the floor of its
minute timestamp over the minutes of a day. -/
def periodKeyDay (y m : Nat) (off : Int) : Int :=
  (1440 * epochDay y m 1 - off).fdiv 1440

/-- Observation function: the first subscriptions row of a user. -/
def findSubRow (s : DBState) (userId : String) : Option SubRow :=
  s.subs.find? (fun r => r.userId == userId)

/-- The finite free-plan limit of each feature, as a natural number. -/
def freeLimit : UsageFeature → Nat
  | .ocr => 50
  | .export' => 3
  | .ai_assistant => 10

-- ====================================================================
-- List helper lemmas
-- ====================================================================

theorem find?_map_inv {α : Type} (f : α → α) (p : α → Bool)
    (h : ∀ a, p (f a) = p a) (l : List α) :
    (l.map f).find? p = (l.find? p).map f := by
  induction l with
  | nil => rfl
  | cons a t ih =>
      by_cases hpa : p a = true
      · rw [List.map_cons, List.find?_cons_of_pos, List.find?_cons_of_pos]
        · rfl
        · exact hpa
        · rw [h a]; exact hpa
      · rw [List.map_cons, List.find?_cons_of_neg, List.find?_cons_of_neg]
        · exact ih
        · simpa using hpa
        · rw [h a]; simpa using hpa

theorem find?_append_some {α : Type} {p : α → Bool} {l₁ : List α}
    (l₂ : List α) {a : α} (h : l₁.find? p = some a) :
    (l₁ ++ l₂).find? p = some a := by
  induction l₁ with
  | nil => simp [List.find?] at h
  | cons b t ih =>
      by_cases hpb : p b = true
      · rw [List.find?_cons_of_pos _ hpb] at h
        rw [List.cons_append, List.find?_cons_of_pos _ hpb]
        exact h
      · rw [List.find?_cons_of_neg _ (by simpa using hpb)] at h
        rw [List.cons_append, List.find?_cons_of_neg _ (by simpa using hpb)]
        exact ih h

theorem find?_append_none {α : Type} {p : α → Bool} {l₁ : List α}
    (l₂ : List α) (h : l₁.find? p = none) :
    (l₁ ++ l₂).find? p = l₂.find? p := by
  induction l₁ with
  | nil => rfl
  | cons b t ih =>
      by_cases hpb : p b = true
      · rw [List.find?_cons_of_pos _ hpb] at h; exact absurd h (by simp)
      · rw [List.find?_cons_of_neg _ (by simpa using hpb)] at h
        rw [List.cons_append, List.find?_cons_of_neg _ (by simpa using hpb)]
        exact ih h

theorem map_eq_self_of {α : Type} {l : List α} {f : α → α}
    (h : ∀ a ∈ l, f a = a) : l.map f = l := by
  induction l with
  | nil => rfl
  | cons a t ih =>
      rw [List.map_cons, h a (by simp), ih fun b hb => h b (by simp [hb])]

theorem selectSingle_some {α : Type} {p : α → Bool} {l : List α} {a : α}
    (h : selectSingle p l = some a) :
    a ∈ l ∧ p a = true ∧ ∀ b ∈ l, p b = true → b = a := by
  unfold selectSingle at h
  rcases hf : l.filter p with _ | ⟨x, _ | ⟨y, t⟩⟩ <;> rw [hf] at h <;>
    simp at h
  rw [← h]
  have hx : x ∈ l.filter p := by rw [hf]; exact List.mem_singleton_self x
  refine ⟨(List.mem_filter.mp hx).1, (List.mem_filter.mp hx).2, ?_⟩
  intro b hb hpb
  have hbf : b ∈ l.filter p := List.mem_filter.mpr ⟨hb, hpb⟩
  rw [hf] at hbf
  exact List.mem_singleton.mp hbf

theorem selectSingle_some_find? {α : Type} {p : α → Bool} {l : List α}
    {a : α} (h : selectSingle p l = some a) : l.find? p = some a := by
  obtain ⟨hmem, hpa, huniq⟩ := selectSingle_some h
  cases hf : l.find? p with
  | none =>
      exact absurd hpa (by simpa using List.find?_eq_none.mp hf a hmem)
  | some x =>
      have hx := List.find?_some hf
      have hxm := List.mem_of_find?_eq_some hf
      rw [huniq x hxm hx]

theorem selectSingle_eq_find?_of_nodup {α β : Type} [DecidableEq β]
    {g : α → β} {v : β} {p : α → Bool} (hp : ∀ a, p a = true ↔ g a = v)
    (l : List α) (hnd : (l.map g).Nodup) : selectSingle p l = l.find? p := by
  induction l with
  | nil => rfl
  | cons a t ih =>
      rw [List.map_cons, List.nodup_cons] at hnd
      by_cases hpa : p a = true
      · have hga : g a = v := (hp a).mp hpa
        have hft : t.filter p = [] := by
          rw [List.filter_eq_nil_iff]
          intro b hb hpb
          exact hnd.1 (hga ▸ (hp b).mp hpb ▸ List.mem_map_of_mem g hb)
        rw [List.find?_cons_of_pos _ hpa]
        unfold selectSingle
        rw [List.filter_cons_of_pos hpa, hft]
      · rw [List.find?_cons_of_neg _ (by simpa using hpa)]
        unfold selectSingle
        rw [List.filter_cons_of_neg (by simpa using hpa)]
        exact ih hnd.2

theorem nodup_append_singleton {α : Type} {l : List α} {a : α}
    (h : l.Nodup) (ha : a ∉ l) : (l ++ [a]).Nodup := by
  induction l with
  | nil => simp
  | cons b t ih =>
      rw [List.nodup_cons] at h
      rw [List.cons_append, List.nodup_cons]
      refine ⟨?_, ih h.2 fun hm => ha (by simp [hm])⟩
      intro hb
      rcases List.mem_append.mp hb with hb | hb
      · exact h.1 hb
      · exact ha (by simp [List.mem_singleton.mp hb])

theorem nodup_map_inj {α β : Type} {f : α → β} {l : List α}
    (h : (l.map f).Nodup) {x y : α} (hx : x ∈ l) (hy : y ∈ l)
    (hf : f x = f y) : x = y := by
  induction l with
  | nil => cases hx
  | cons a t ih =>
      rw [List.map_cons, List.nodup_cons] at h
      rcases List.mem_cons.mp hx with rfl | hx' <;>
        rcases List.mem_cons.mp hy with rfl | hy'
      · rfl
      · exact absurd (hf ▸ List.mem_map_of_mem f hy') h.1
      · exact absurd (hf ▸ List.mem_map_of_mem f hx') h.1
      · exact ih h.2 hx' hy'

-- ====================================================================
-- Usage ledger lemmas
-- ====================================================================

theorem usageKeyMatch_iff {userId key : String} {r : UsageRow} :
    usageKeyMatch userId key r = true ↔
      r.userId = userId ∧ r.periodStart = key := by
  simp [usageKeyMatch]

theorem usageKeyMatch_pair {userId key : String} {r : UsageRow} :
    usageKeyMatch userId key r = true ↔
      (r.userId, r.periodStart) = (userId, key) := by
  rw [usageKeyMatch_iff, Prod.mk.injEq]

theorem selectSingle_usage {s : DBState} (hwf : WF s) (userId key : String) :
    selectSingle (usageKeyMatch userId key) s.usage =
      s.usage.find? (usageKeyMatch userId key) :=
  selectSingle_eq_find?_of_nodup (fun _ => usageKeyMatch_pair) s.usage hwf.2.1

theorem selectSingle_subs {s : DBState} (hwf : WF s) (userId : String) :
    selectSingle (fun r => r.userId == userId) s.subs =
      s.subs.find? (fun r => r.userId == userId) :=
  selectSingle_eq_find?_of_nodup (g := fun r => r.userId) (v := userId)
    (fun _ => by simp) s.subs hwf.2.2.2

theorem setFeatureCount_userId (r : UsageRow) (f : UsageFeature) (n : Nat) :
    (setFeatureCount r f n).userId = r.userId := by
  cases f <;> rfl

theorem setFeatureCount_periodStart (r : UsageRow) (f : UsageFeature)
    (n : Nat) : (setFeatureCount r f n).periodStart = r.periodStart := by
  cases f <;> rfl

theorem setFeatureCount_id (r : UsageRow) (f : UsageFeature) (n : Nat) :
    (setFeatureCount r f n).id = r.id := by
  cases f <;> rfl

theorem featureCount_set_same (r : UsageRow) (f : UsageFeature) (n : Nat) :
    featureCount (setFeatureCount r f n) f = n := by
  cases f <;> rfl

theorem featureCount_set_ne (r : UsageRow) {f f' : UsageFeature} (n : Nat)
    (h : f' ≠ f) :
    featureCount (setFeatureCount r f n) f' = featureCount r f' := by
  cases f <;> cases f' <;> first | rfl | exact absurd rfl h

theorem featureCount_mk_zero (i : Nat) (u k : String) (f : UsageFeature) :
    featureCount ⟨i, u, 0, 0, 0, k⟩ f = 0 := by
  cases f <;> rfl

theorem usageKeyMatch_set (u k : String) (r : UsageRow) (f : UsageFeature)
    (n : Nat) :
    usageKeyMatch u k (setFeatureCount r f n) = usageKeyMatch u k r := by
  unfold usageKeyMatch
  rw [setFeatureCount_userId, setFeatureCount_periodStart]

theorem counterOf_of_find {s : DBState} {u k : String} {r : UsageRow}
    (h : s.usage.find? (usageKeyMatch u k) = some r) (f : UsageFeature) :
    counterOf s u k f = featureCount r f := by
  unfold counterOf; rw [h]

theorem counterOf_of_none {s : DBState} {u k : String}
    (h : s.usage.find? (usageKeyMatch u k) = none) (f : UsageFeature) :
    counterOf s u k f = 0 := by
  unfold counterOf; rw [h]

theorem getOrCreate_of_some {s : DBState} {userId key : String}
    {r : UsageRow}
    (h : selectSingle (usageKeyMatch userId key) s.usage = some r) :
    getOrCreateUsageRecord s userId key = (r, s) := by
  unfold getOrCreateUsageRecord; rw [h]

theorem getOrCreate_of_none {s : DBState} {userId key : String}
    (h : selectSingle (usageKeyMatch userId key) s.usage = none) :
    getOrCreateUsageRecord s userId key =
      (⟨s.nextId, userId, 0, 0, 0, key⟩,
       ⟨s.subs, s.usage ++ [⟨s.nextId, userId, 0, 0, 0, key⟩],
        s.nextId + 1⟩) := by
  unfold getOrCreateUsageRecord; rw [h]

theorem getOrCreate_subs (s : DBState) (userId key : String) :
    ((getOrCreateUsageRecord s userId key).2).subs = s.subs := by
  cases h : selectSingle (usageKeyMatch userId key) s.usage with
  | some r => rw [getOrCreate_of_some h]
  | none => rw [getOrCreate_of_none h]

theorem getOrCreate_counter (s : DBState) (userId key : String)
    (u' k' : String) (f' : UsageFeature) :
    counterOf ((getOrCreateUsageRecord s userId key).2) u' k' f' =
      counterOf s u' k' f' := by
  cases h : selectSingle (usageKeyMatch userId key) s.usage with
  | some r => rw [getOrCreate_of_some h]
  | none =>
      rw [getOrCreate_of_none h]
      cases hf : s.usage.find? (usageKeyMatch u' k') with
      | some x =>
          rw [counterOf_of_find hf, counterOf_of_find]
          show (s.usage ++ [(⟨s.nextId, userId, 0, 0, 0, key⟩ : UsageRow)]).find?
            (usageKeyMatch u' k') = some x
          exact find?_append_some _ hf
      | none =>
          rw [counterOf_of_none hf]
          unfold counterOf
          rw [show ((⟨s.subs, s.usage ++ [⟨s.nextId, userId, 0, 0, 0, key⟩],
            s.nextId + 1⟩ : DBState)).usage = s.usage ++
            [⟨s.nextId, userId, 0, 0, 0, key⟩] from rfl]
          rw [find?_append_none _ hf]
          cases hm : usageKeyMatch u' k' ⟨s.nextId, userId, 0, 0, 0, key⟩ with
          | true =>
              rw [List.find?_cons_of_pos _ hm]
              exact featureCount_mk_zero _ _ _ _
          | false =>
              rw [List.find?_cons_of_neg _ (by simp [hm]), List.find?_nil]

theorem wf_append_row {s : DBState} (hwf : WF s) (r : UsageRow)
    (hid : r.id = s.nextId)
    (hkey : s.usage.find? (usageKeyMatch r.userId r.periodStart) = none) :
    WF ⟨s.subs, s.usage ++ [r], s.nextId + 1⟩ := by
  obtain ⟨hids, hkeys, hbound, hsubs⟩ := hwf
  refine ⟨?_, ?_, ?_, hsubs⟩
  · rw [List.map_append]
    refine nodup_append_singleton hids ?_
    intro hm
    obtain ⟨x, hx, hxid⟩ := List.mem_map.mp hm
    exact absurd (hid ▸ hxid) (Nat.ne_of_lt (hbound x hx))
  · rw [List.map_append]
    refine nodup_append_singleton hkeys ?_
    intro hm
    obtain ⟨x, hx, hxk⟩ := List.mem_map.mp hm
    have hpx : usageKeyMatch r.userId r.periodStart x = true :=
      usageKeyMatch_pair.mpr hxk
    exact absurd hpx (by simpa using List.find?_eq_none.mp hkey x hx)
  · intro x hx
    rcases List.mem_append.mp hx with hx | hx
    · exact Nat.lt_succ_of_lt (hbound x hx)
    · rw [List.mem_singleton.mp hx, hid]
      exact Nat.lt_succ_self _

theorem wf_getOrCreate {s : DBState} (hwf : WF s) (userId key : String) :
    WF ((getOrCreateUsageRecord s userId key).2) := by
  cases h : selectSingle (usageKeyMatch userId key) s.usage with
  | some r => rw [getOrCreate_of_some h]; exact hwf
  | none =>
      rw [getOrCreate_of_none h]
      refine wf_append_row hwf _ rfl ?_
      rw [← selectSingle_usage hwf]
      exact h

theorem incrementUsage_of_some {s : DBState} {userId key : String}
    {r : UsageRow} (f : UsageFeature)
    (h : selectSingle (usageKeyMatch userId key) s.usage = some r) :
    incrementUsage s userId key f =
      ⟨s.subs, s.usage.map (fun x =>
        if x.id == r.id then setFeatureCount x f (featureCount r f + 1)
        else x), s.nextId⟩ := by
  unfold incrementUsage
  rw [getOrCreate_of_some h]

theorem incrementUsage_of_none {s : DBState} {userId key : String}
    (f : UsageFeature)
    (h : selectSingle (usageKeyMatch userId key) s.usage = none) :
    incrementUsage s userId key f =
      DBState.mk s.subs
        (List.map (fun x : UsageRow =>
          if x.id == s.nextId then
            setFeatureCount x f
              (featureCount (UsageRow.mk s.nextId userId 0 0 0 key) f + 1)
          else x)
         (s.usage ++ [UsageRow.mk s.nextId userId 0 0 0 key]))
        (s.nextId + 1) := by
  unfold incrementUsage
  rw [getOrCreate_of_none h]

theorem incrementUsage_none_wf {s : DBState} {userId key : String}
    (f : UsageFeature) (hwf : WF s)
    (h : selectSingle (usageKeyMatch userId key) s.usage = none) :
    incrementUsage s userId key f =
      DBState.mk s.subs
        (s.usage ++ [setFeatureCount (UsageRow.mk s.nextId userId 0 0 0 key) f 1])
        (s.nextId + 1) := by
  rw [incrementUsage_of_none f h, List.map_append]
  have hself : List.map (fun x : UsageRow =>
      if x.id == s.nextId then
        setFeatureCount x f
          (featureCount (UsageRow.mk s.nextId userId 0 0 0 key) f + 1)
      else x) s.usage = s.usage := by
    refine map_eq_self_of ?_
    intro x hx
    have hne : (x.id == s.nextId) = false := by
      simpa using Nat.ne_of_lt (hwf.2.2.1 x hx)
    simp only [hne, Bool.false_eq_true, if_false]
  have hnew : List.map (fun x : UsageRow =>
      if x.id == s.nextId then
        setFeatureCount x f
          (featureCount (UsageRow.mk s.nextId userId 0 0 0 key) f + 1)
      else x) [UsageRow.mk s.nextId userId 0 0 0 key] =
      [setFeatureCount (UsageRow.mk s.nextId userId 0 0 0 key) f 1] := by
    rw [List.map_singleton]
    rw [show ((UsageRow.mk s.nextId userId 0 0 0 key).id == s.nextId) =
      true by simp]
    rw [if_pos rfl]
    rw [featureCount_mk_zero]
  rw [hself, hnew]

theorem increment_subs (s : DBState) (userId key : String)
    (f : UsageFeature) : (incrementUsage s userId key f).subs = s.subs := by
  cases h : selectSingle (usageKeyMatch userId key) s.usage with
  | some r => rw [incrementUsage_of_some f h]
  | none => rw [incrementUsage_of_none f h]

theorem wf_increment {s : DBState} (hwf : WF s) (userId key : String)
    (f : UsageFeature) : WF (incrementUsage s userId key f) := by
  cases h : selectSingle (usageKeyMatch userId key) s.usage with
  | some r =>
      rw [incrementUsage_of_some f h]
      obtain ⟨hids, hkeys, hbound, hsubs⟩ := hwf
      have hid : ∀ x : UsageRow,
          ((if x.id == r.id then
              setFeatureCount x f (featureCount r f + 1) else x)).id =
            x.id := by
        intro x
        by_cases hx : (x.id == r.id) = true
        · rw [if_pos hx, setFeatureCount_id]
        · rw [if_neg hx]
      have hkey : ∀ x : UsageRow,
          (fun y => (y.userId, y.periodStart))
              ((if x.id == r.id then
                setFeatureCount x f (featureCount r f + 1) else x)) =
            (x.userId, x.periodStart) := by
        intro x
        by_cases hx : (x.id == r.id) = true
        · rw [if_pos hx]
          simp [setFeatureCount_userId, setFeatureCount_periodStart]
        · rw [if_neg hx]
      refine ⟨?_, ?_, ?_, hsubs⟩
      · have heq : List.map (fun y : UsageRow => y.id)
            (List.map (fun x : UsageRow =>
              if x.id == r.id then
                setFeatureCount x f (featureCount r f + 1) else x) s.usage) =
            List.map (fun y : UsageRow => y.id) s.usage := by
          rw [List.map_map]
          exact List.map_congr_left (fun x _ => hid x)
        rw [heq]
        exact hids
      · have heq : List.map (fun y : UsageRow => (y.userId, y.periodStart))
            (List.map (fun x : UsageRow =>
              if x.id == r.id then
                setFeatureCount x f (featureCount r f + 1) else x) s.usage) =
            List.map (fun y : UsageRow => (y.userId, y.periodStart))
              s.usage := by
          rw [List.map_map]
          exact List.map_congr_left (fun x _ => hkey x)
        rw [heq]
        exact hkeys
      · intro x hx
        obtain ⟨y, hy, hyx⟩ := List.mem_map.mp hx
        rw [← hyx, hid y]
        exact hbound y hy
  | none =>
      rw [incrementUsage_none_wf f hwf h]
      refine wf_append_row hwf _ (setFeatureCount_id _ _ _) ?_
      rw [setFeatureCount_userId, setFeatureCount_periodStart]
      show s.usage.find? (usageKeyMatch userId key) = none
      rw [← selectSingle_usage hwf]
      exact h

theorem counterOf_mk_find {subs : List SubRow} {usage : List UsageRow}
    {nid : Nat} {u k : String} {r : UsageRow}
    (h : usage.find? (usageKeyMatch u k) = some r) (f : UsageFeature) :
    counterOf (DBState.mk subs usage nid) u k f = featureCount r f :=
  counterOf_of_find h f

theorem counterOf_mk_none {subs : List SubRow} {usage : List UsageRow}
    {nid : Nat} {u k : String}
    (h : usage.find? (usageKeyMatch u k) = none) (f : UsageFeature) :
    counterOf (DBState.mk subs usage nid) u k f = 0 :=
  counterOf_of_none h f

theorem counter_increment_all {s : DBState} (hwf : WF s)
    (userId key : String) (f : UsageFeature) (u' k' : String)
    (f' : UsageFeature) :
    counterOf (incrementUsage s userId key f) u' k' f' =
      counterOf s u' k' f' +
        (if u' = userId ∧ k' = key ∧ f' = f then 1 else 0) := by
  cases h : selectSingle (usageKeyMatch userId key) s.usage with
  | some r =>
      have hfind : s.usage.find? (usageKeyMatch userId key) = some r :=
        selectSingle_some_find? h
      rw [incrementUsage_of_some f h]
      have hinv : ∀ (a b : String) (x : UsageRow),
          usageKeyMatch a b (if x.id == r.id then
            setFeatureCount x f (featureCount r f + 1) else x) =
            usageKeyMatch a b x := by
        intro a b x
        by_cases hx : (x.id == r.id) = true
        · rw [if_pos hx, usageKeyMatch_set]
        · rw [if_neg hx]
      have hmap := find?_map_inv
        (fun x : UsageRow => if x.id == r.id then
          setFeatureCount x f (featureCount r f + 1) else x)
        (usageKeyMatch u' k') (hinv u' k') s.usage
      cases hf : s.usage.find? (usageKeyMatch u' k') with
      | none =>
          have hres : (List.map (fun x : UsageRow => if x.id == r.id then
              setFeatureCount x f (featureCount r f + 1) else x)
                s.usage).find? (usageKeyMatch u' k') = none := by
            rw [hmap, hf]; rfl
          rw [counterOf_mk_none hres, counterOf_of_none hf]
          by_cases hcond : u' = userId ∧ k' = key ∧ f' = f
          · obtain ⟨rfl, rfl, rfl⟩ := hcond
            rw [hfind] at hf
            cases hf
          · rw [if_neg hcond]
      | some x =>
          have hres : (List.map (fun x : UsageRow => if x.id == r.id then
              setFeatureCount x f (featureCount r f + 1) else x)
                s.usage).find? (usageKeyMatch u' k') =
              some (if x.id == r.id then
                setFeatureCount x f (featureCount r f + 1) else x) := by
            rw [hmap, hf]; rfl
          rw [counterOf_mk_find hres, counterOf_of_find hf]
          by_cases hpair : u' = userId ∧ k' = key
          · obtain ⟨rfl, rfl⟩ := hpair
            have hxr : x = r := by
              rw [hfind] at hf
              exact (Option.some.inj hf).symm
            subst hxr
            rw [if_pos (by simp)]
            by_cases hff : f' = f
            · subst hff
              rw [featureCount_set_same, if_pos ⟨rfl, rfl, rfl⟩]
            · rw [featureCount_set_ne _ _ hff,
                if_neg (fun hc => hff hc.2.2)]
              rfl
          · have hxm := List.mem_of_find?_eq_some hf
            have hrm := List.mem_of_find?_eq_some hfind
            have hxid : (x.id == r.id) = false := by
              rw [Bool.eq_false_iff]
              intro hbeq
              have hxr : x = r :=
                nodup_map_inj hwf.1 hxm hrm (by simpa using hbeq)
              subst hxr
              have h1 := usageKeyMatch_iff.mp (List.find?_some hf)
              have h2 := usageKeyMatch_iff.mp (List.find?_some hfind)
              exact hpair ⟨h1.1 ▸ h2.1 ▸ rfl, h1.2 ▸ h2.2 ▸ rfl⟩
            rw [if_neg (by simp [hxid]),
              if_neg (fun hc => hpair ⟨hc.1, hc.2.1⟩)]
            rfl
  | none =>
      have hfindnone : s.usage.find? (usageKeyMatch userId key) = none := by
        rw [← selectSingle_usage hwf]; exact h
      rw [incrementUsage_none_wf f hwf h]
      cases hf : s.usage.find? (usageKeyMatch u' k') with
      | some x =>
          have hres : (s.usage ++
              [setFeatureCount (UsageRow.mk s.nextId userId 0 0 0 key) f
                1]).find? (usageKeyMatch u' k') = some x :=
            find?_append_some _ hf
          rw [counterOf_mk_find hres, counterOf_of_find hf]
          by_cases hcond : u' = userId ∧ k' = key ∧ f' = f
          · obtain ⟨rfl, rfl, rfl⟩ := hcond
            rw [hfindnone] at hf
            cases hf
          · rw [if_neg hcond]
            rfl
      | none =>
          have happ := find?_append_none
            (p := usageKeyMatch u' k')
            [setFeatureCount (UsageRow.mk s.nextId userId 0 0 0 key) f 1] hf
          have hm : usageKeyMatch u' k'
              (setFeatureCount (UsageRow.mk s.nextId userId 0 0 0 key) f 1) =
              usageKeyMatch u' k' (UsageRow.mk s.nextId userId 0 0 0 key) :=
            usageKeyMatch_set _ _ _ _ _
          by_cases hpair : u' = userId ∧ k' = key
          · obtain ⟨rfl, rfl⟩ := hpair
            have hmt : usageKeyMatch u' k'
                (setFeatureCount (UsageRow.mk s.nextId u' 0 0 0 k') f 1) =
                true := by
              rw [hm]
              exact usageKeyMatch_iff.mpr ⟨rfl, rfl⟩
            have hres : (s.usage ++
                [setFeatureCount (UsageRow.mk s.nextId u' 0 0 0 k') f
                  1]).find? (usageKeyMatch u' k') =
                some (setFeatureCount (UsageRow.mk s.nextId u' 0 0 0 k')
                  f 1) := by
              rw [happ, List.find?_cons_of_pos _ hmt]
            rw [counterOf_mk_find hres, counterOf_of_none hf]
            by_cases hff : f' = f
            · subst hff
              rw [featureCount_set_same, if_pos ⟨rfl, rfl, rfl⟩]
            · rw [featureCount_set_ne _ _ hff, featureCount_mk_zero,
                if_neg (fun hc => hff hc.2.2)]
          · have hmf : usageKeyMatch u' k'
                (setFeatureCount (UsageRow.mk s.nextId userId 0 0 0 key) f
                  1) = false := by
              rw [hm, Bool.eq_false_iff]
              intro htrue
              have hiff := usageKeyMatch_iff.mp htrue
              exact hpair ⟨hiff.1.symm, hiff.2.symm⟩
            have hres : (s.usage ++
                [setFeatureCount (UsageRow.mk s.nextId userId 0 0 0 key) f
                  1]).find? (usageKeyMatch u' k') = none := by
              rw [happ, List.find?_cons_of_neg _ (by simp [hmf]),
                List.find?_nil]
            rw [counterOf_mk_none hres, counterOf_of_none hf,
              if_neg (fun hc => hpair ⟨hc.1, hc.2.1⟩)]

theorem counter_increment {s : DBState} (hwf : WF s)
    (userId key : String) (f : UsageFeature) :
    counterOf (incrementUsage s userId key f) userId key f =
      counterOf s userId key f + 1 := by
  rw [counter_increment_all hwf userId key f userId key f,
    if_pos ⟨rfl, rfl, rfl⟩]

theorem counter_increment_frame {s : DBState} (hwf : WF s)
    {userId key : String} {f : UsageFeature} {u' k' : String}
    {f' : UsageFeature} (h : ¬(u' = userId ∧ k' = key ∧ f' = f)) :
    counterOf (incrementUsage s userId key f) u' k' f' =
      counterOf s u' k' f' := by
  rw [counter_increment_all hwf userId key f u' k' f', if_neg h]
  rfl

theorem check_of_paid {s : DBState} {userId : String} (key : String)
    (f : UsageFeature)
    (h : isFreePlan (getUserPlanType s userId) = false) :
    checkUsageLimit s userId key f =
      (⟨true, 0, .inf, .inf, getUserPlanType s userId⟩, s) := by
  unfold checkUsageLimit
  rw [h]
  rfl

theorem check_of_free_some {s : DBState} {userId key : String}
    {r : UsageRow} (f : UsageFeature)
    (hfree : getUserPlanType s userId = PlanType.free)
    (h : selectSingle (usageKeyMatch userId key) s.usage = some r) :
    checkUsageLimit s userId key f =
      (⟨enumLtNat (featureCount r f) (getFeatureLimit PlanType.free f),
        featureCount r f, getFeatureLimit PlanType.free f,
        enumRemaining (getFeatureLimit PlanType.free f) (featureCount r f),
        PlanType.free⟩, s) := by
  unfold checkUsageLimit
  rw [hfree, getOrCreate_of_some h]
  rfl

theorem check_of_free_none {s : DBState} {userId key : String}
    (f : UsageFeature)
    (hfree : getUserPlanType s userId = PlanType.free)
    (h : selectSingle (usageKeyMatch userId key) s.usage = none) :
    checkUsageLimit s userId key f =
      (⟨enumLtNat 0 (getFeatureLimit PlanType.free f), 0,
        getFeatureLimit PlanType.free f,
        enumRemaining (getFeatureLimit PlanType.free f) 0, PlanType.free⟩,
       DBState.mk s.subs
         (s.usage ++ [UsageRow.mk s.nextId userId 0 0 0 key])
         (s.nextId + 1)) := by
  unfold checkUsageLimit
  rw [hfree, getOrCreate_of_none h]
  simp [isFreePlan, featureCount_mk_zero]

theorem check_free_result {s : DBState} (hwf : WF s) {userId : String}
    (key : String) (f : UsageFeature)
    (hfree : getUserPlanType s userId = PlanType.free) :
    (checkUsageLimit s userId key f).1 =
      ⟨enumLtNat (counterOf s userId key f) (getFeatureLimit PlanType.free f),
       counterOf s userId key f, getFeatureLimit PlanType.free f,
       enumRemaining (getFeatureLimit PlanType.free f)
         (counterOf s userId key f), PlanType.free⟩ := by
  cases h : selectSingle (usageKeyMatch userId key) s.usage with
  | some r =>
      rw [check_of_free_some f hfree h,
        counterOf_of_find (selectSingle_some_find? h)]
  | none =>
      have hfn : s.usage.find? (usageKeyMatch userId key) = none := by
        rw [← selectSingle_usage hwf]; exact h
      rw [check_of_free_none f hfree h, counterOf_of_none hfn]

theorem check_subs (s : DBState) (userId key : String) (f : UsageFeature) :
    ((checkUsageLimit s userId key f).2).subs = s.subs := by
  unfold checkUsageLimit
  by_cases h : isFreePlan (getUserPlanType s userId) = false
  · rw [h]; rfl
  · rw [Bool.not_eq_false] at h
    rw [h]
    exact getOrCreate_subs s userId key

theorem check_counter (s : DBState) (userId key : String)
    (f : UsageFeature) (u' k' : String) (f' : UsageFeature) :
    counterOf ((checkUsageLimit s userId key f).2) u' k' f' =
      counterOf s u' k' f' := by
  unfold checkUsageLimit
  by_cases h : isFreePlan (getUserPlanType s userId) = false
  · rw [h]; rfl
  · rw [Bool.not_eq_false] at h
    rw [h]
    exact getOrCreate_counter s userId key u' k' f'

theorem check_wf {s : DBState} (hwf : WF s) (userId key : String)
    (f : UsageFeature) : WF ((checkUsageLimit s userId key f).2) := by
  unfold checkUsageLimit
  by_cases h : isFreePlan (getUserPlanType s userId) = false
  · rw [h]; exact hwf
  · rw [Bool.not_eq_false] at h
    rw [h]
    exact wf_getOrCreate hwf userId key

theorem monthly_counter (s : DBState) (userId key : String)
    (u' k' : String) (f' : UsageFeature) :
    counterOf ((getMonthlyUsage s userId key).2) u' k' f' =
      counterOf s u' k' f' := by
  unfold getMonthlyUsage
  exact getOrCreate_counter s userId key u' k' f'

theorem plan_of_subs_eq {s t : DBState} (h : s.subs = t.subs)
    (userId : String) : getUserPlanType s userId = getUserPlanType t userId := by
  unfold getUserPlanType getUserSubscription
  rw [h]

theorem iterInc_subs (s : DBState) (userId key : String) (f : UsageFeature) :
    ∀ n, (iterInc s userId key f n).subs = s.subs := by
  intro n
  induction n with
  | zero => rfl
  | succ n ih =>
      show (incrementUsage (iterInc s userId key f n) userId key f).subs =
        s.subs
      rw [increment_subs, ih]

theorem iterInc_wf {s : DBState} (hwf : WF s) (userId key : String)
    (f : UsageFeature) : ∀ n, WF (iterInc s userId key f n) := by
  intro n
  induction n with
  | zero => exact hwf
  | succ n ih => exact wf_increment ih userId key f

theorem iterInc_counter {s : DBState} (hwf : WF s) (userId key : String)
    (f : UsageFeature) :
    ∀ n, counterOf (iterInc s userId key f n) userId key f =
      counterOf s userId key f + n := by
  intro n
  induction n with
  | zero => rfl
  | succ n ih =>
      show counterOf (incrementUsage (iterInc s userId key f n) userId key f)
        userId key f = counterOf s userId key f + (n + 1)
      rw [counter_increment (iterInc_wf hwf userId key f n) userId key f, ih]
      omega

theorem iterInc_plan {s : DBState} (userId key : String) (f : UsageFeature)
    (n : Nat) (u : String) :
    getUserPlanType (iterInc s userId key f n) u = getUserPlanType s u :=
  plan_of_subs_eq (iterInc_subs s userId key f n) u

-- ====================================================================
-- Period key lemmas
-- ====================================================================

theorem periodKeyDay_nonpos (y m : Nat) {off : Int} (h1 : -1440 < off)
    (h2 : off ≤ 0) : periodKeyDay y m off = epochDay y m 1 := by
  unfold periodKeyDay
  rw [Int.fdiv_eq_ediv _ (by norm_num)]
  omega

theorem periodKeyDay_pos (y m : Nat) {off : Int} (h1 : 0 < off)
    (h2 : off < 1440) : periodKeyDay y m off = epochDay y m 1 - 1 := by
  unfold periodKeyDay
  rw [Int.fdiv_eq_ediv _ (by norm_num)]
  omega

-- ====================================================================
-- Webhook reconciler lemmas
-- ====================================================================

theorem map_update_idem {α : Type} (l : List α) (q : α → Bool) (g : α → α)
    (hg : ∀ a, q a = true → q (g a) = true ∧ g (g a) = g a) :
    (l.map (fun a => if q a then g a else a)).map
      (fun a => if q a then g a else a) =
      l.map (fun a => if q a then g a else a) := by
  induction l with
  | nil => rfl
  | cons a t ih =>
      rw [List.map_cons, List.map_cons, ih]
      congr 1
      show (if q (if q a = true then g a else a) = true then
        g (if q a = true then g a else a) else (if q a = true then g a
          else a)) = (if q a = true then g a else a)
      by_cases hq : q a = true
      · rw [if_pos hq, if_pos (hg a hq).1, (hg a hq).2]
      · rw [if_neg hq, if_neg hq]

theorem handlePaymentFailed_idem (now : Int) (s : DBState)
    (invoice : StripeInvoice) :
    handlePaymentFailed now (handlePaymentFailed now s invoice) invoice =
      handlePaymentFailed now s invoice := by
  by_cases h : strTruthy invoice.subscription = true
  · have heq : ∀ t : DBState, handlePaymentFailed now t invoice =
        DBState.mk (t.subs.map (fun r =>
          if r.stripeSubscriptionId == some (invoice.subscription.getD "")
          then { r with status := SubStatus.past_due, updatedAt := now }
          else r)) t.usage t.nextId := by
      intro t
      unfold handlePaymentFailed
      rw [h]
      rfl
    rw [heq, heq]
    show DBState.mk _ _ _ = DBState.mk _ _ _
    congr 1
    exact map_update_idem s.subs _ _ (fun r hr => ⟨hr, rfl⟩)
  · rw [Bool.not_eq_true] at h
    have heq : ∀ t : DBState, handlePaymentFailed now t invoice = t := by
      intro t
      unfold handlePaymentFailed
      rw [h]
      rfl
    rw [heq, heq]

theorem cancel_then_revert_fixed (now now2 : Int) (s : DBState)
    (subId : String) (x : SubRow)
    (hx : x ∈ (revertToFreePlan (cancelSubscription s now subId) now2
      subId).subs) :
    (x.stripeSubscriptionId == some subId) = false := by
  unfold revertToFreePlan cancelSubscription at hx
  obtain ⟨y, hy, hyx⟩ := List.mem_map.mp hx
  obtain ⟨z, hz, hzy⟩ := List.mem_map.mp hy
  by_cases hq : (z.stripeSubscriptionId == some subId) = true
  · rw [if_pos hq] at hzy
    have hqy : (y.stripeSubscriptionId == some subId) = true := by
      rw [← hzy]; exact hq
    rw [if_pos hqy] at hyx
    rw [← hyx]
    simp
  · rw [if_neg hq] at hzy
    have hqy : (y.stripeSubscriptionId == some subId) = false := by
      rw [← hzy]
      exact Bool.not_eq_true _ ▸ hq
    rw [if_neg (by simp [hqy])] at hyx
    rw [← hyx, hqy]

theorem update_fixed_of_no_match {s : DBState} {q : SubRow → Bool}
    (g : SubRow → SubRow) (h : ∀ x ∈ s.subs, q x = false) :
    s.subs.map (fun r => if q r then g r else r) = s.subs :=
  map_eq_self_of fun a ha => by rw [if_neg (by simp [h a ha])]

theorem cancel_fixed_of_no_match (now : Int) (subId : String)
    (t : DBState)
    (h : ∀ x ∈ t.subs, (x.stripeSubscriptionId == some subId) = false) :
    cancelSubscription t now subId = t := by
  unfold cancelSubscription
  rw [update_fixed_of_no_match _ h]

theorem revert_fixed_of_no_match (now : Int) (subId : String)
    (t : DBState)
    (h : ∀ x ∈ t.subs, (x.stripeSubscriptionId == some subId) = false) :
    revertToFreePlan t now subId = t := by
  unfold revertToFreePlan
  rw [update_fixed_of_no_match _ h]

theorem handleSubscriptionDeleted_idem (now : Int) (s : DBState)
    (sub : StripeSub) :
    handleSubscriptionDeleted now (handleSubscriptionDeleted now s sub)
      sub = handleSubscriptionDeleted now s sub := by
  by_cases hc : sub.cancelAtPeriodEnd = true
  · have heq : ∀ t : DBState, handleSubscriptionDeleted now t sub =
        cancelSubscription t now sub.id := by
      intro t
      unfold handleSubscriptionDeleted
      rw [hc]
      rfl
    rw [heq, heq]
    unfold cancelSubscription
    show DBState.mk _ _ _ = DBState.mk _ _ _
    congr 1
    exact map_update_idem s.subs _ _ (fun r hr => ⟨hr, rfl⟩)
  · rw [Bool.not_eq_true] at hc
    have heq : ∀ t : DBState, handleSubscriptionDeleted now t sub =
        revertToFreePlan (cancelSubscription t now sub.id) now sub.id := by
      intro t
      unfold handleSubscriptionDeleted
      rw [hc]
      rfl
    rw [heq, heq]
    have hfix : ∀ x ∈ (revertToFreePlan (cancelSubscription s now sub.id)
        now sub.id).subs, (x.stripeSubscriptionId == some sub.id) = false :=
      fun x hx => cancel_then_revert_fixed now now s sub.id x hx
    rw [cancel_fixed_of_no_match now sub.id _ hfix,
      revert_fixed_of_no_match now sub.id _ hfix]

theorem upsertList_idem {α : Type} (l : List α) (q : α → Bool) (v : α)
    (hv : q v = true) :
    (if ((if l.any q = true then l.map (fun r => if q r then v else r)
          else l ++ [v]).any q) = true then
       (if l.any q = true then l.map (fun r => if q r then v else r)
        else l ++ [v]).map (fun r => if q r then v else r)
     else (if l.any q = true then l.map (fun r => if q r then v else r)
        else l ++ [v]) ++ [v]) =
    (if l.any q = true then l.map (fun r => if q r then v else r)
     else l ++ [v]) := by
  by_cases h : l.any q = true
  · rw [if_pos h]
    have hany2 : (l.map (fun r => if q r then v else r)).any q = true := by
      obtain ⟨r, hr, hpr⟩ := List.any_eq_true.mp h
      refine List.any_eq_true.mpr ⟨(if q r = true then v else r),
        List.mem_map_of_mem _ hr, ?_⟩
      rw [if_pos hpr]
      exact hv
    rw [if_pos hany2]
    exact map_update_idem l q (fun _ => v) (fun a ha => ⟨hv, rfl⟩)
  · rw [if_neg h]
    have hall : ∀ r ∈ l, q r = false := by
      intro r hr
      by_contra hc
      exact h (List.any_eq_true.mpr ⟨r, hr, by
        rw [Bool.not_eq_false] at hc; exact hc⟩)
    have hany2 : (l ++ [v]).any q = true :=
      List.any_eq_true.mpr ⟨v, by simp, hv⟩
    rw [if_pos hany2, List.map_append,
      map_eq_self_of (fun r hr => by rw [if_neg (by simp [hall r hr])]),
      List.map_singleton, if_pos hv]

theorem upsert_idem (s : DBState) (now : Int)
    (userId custId subId : String) (plan : PlanType) (st : SubStatus)
    (ps pe : Int) :
    upsertSubscription
      (upsertSubscription s now userId custId subId plan st ps pe)
      now userId custId subId plan st ps pe =
      upsertSubscription s now userId custId subId plan st ps pe := by
  unfold upsertSubscription
  show DBState.mk _ _ _ = DBState.mk _ _ _
  congr 1
  exact upsertList_idem s.subs (fun r => r.userId == userId)
    (SubRow.mk userId (some custId) (some subId) plan st (some ps)
      (some pe) now) (by simp)

theorem handleCheckoutCompleted_idem (env : StripeEnv) (now : Int)
    (s : DBState) (session : CheckoutSession) :
    handleCheckoutCompleted env now
      (handleCheckoutCompleted env now s session) session =
      handleCheckoutCompleted env now s session := by
  by_cases h1 : strTruthy session.subscription = true
  · by_cases h2 : strTruthy (jsOrStr
        (env.retrieve (session.subscription.getD "")).metadataUserId
        session.metadataUserId) = true
    · cases hp : jsPriceToPlan
          (env.retrieve (session.subscription.getD "")).priceId with
      | none =>
          have heq : ∀ t, handleCheckoutCompleted env now t session = t := by
            intro t
            unfold handleCheckoutCompleted
            rw [h1, h2, hp]
            rfl
          rw [heq, heq]
      | some plan =>
          have heq : ∀ t, handleCheckoutCompleted env now t session =
              upsertSubscription t now
                ((jsOrStr (env.retrieve
                    (session.subscription.getD "")).metadataUserId
                  session.metadataUserId).getD "")
                (session.customer.getD "")
                (session.subscription.getD "") plan .active
                ((env.retrieve
                  (session.subscription.getD "")).currentPeriodStart * 1000)
                ((env.retrieve
                  (session.subscription.getD "")).currentPeriodEnd * 1000)
              := by
            intro t
            unfold handleCheckoutCompleted
            rw [h1, h2, hp]
            rfl
          rw [heq, heq]
          exact upsert_idem _ _ _ _ _ _ _ _ _
    · rw [Bool.not_eq_true] at h2
      have heq : ∀ t, handleCheckoutCompleted env now t session = t := by
        intro t
        unfold handleCheckoutCompleted
        rw [h1, h2]
        rfl
      rw [heq, heq]
  · rw [Bool.not_eq_true] at h1
    have heq : ∀ t, handleCheckoutCompleted env now t session = t := by
      intro t
      unfold handleCheckoutCompleted
      rw [h1]
      rfl
    rw [heq, heq]

theorem upsert_subs_of_any {s : DBState} {now : Int}
    {userId custId subId : String} {plan : PlanType} {st : SubStatus}
    {ps pe : Int}
    (h : s.subs.any (fun r => r.userId == userId) = true) :
    (upsertSubscription s now userId custId subId plan st ps pe).subs =
      s.subs.map (fun r =>
        if r.userId == userId then
          SubRow.mk userId (some custId) (some subId) plan st (some ps)
            (some pe) now
        else r) := by
  unfold upsertSubscription
  show (if _ = true then _ else _) = _
  rw [if_pos h]

theorem handleSubscriptionUpdated_idem (now : Int) (s : DBState)
    (sub : StripeSub) :
    handleSubscriptionUpdated now (handleSubscriptionUpdated now s sub)
      sub = handleSubscriptionUpdated now s sub := by
  by_cases hm : strTruthy sub.metadataUserId = true
  · cases hp : jsPriceToPlan sub.priceId with
    | none =>
        have heq : ∀ t, handleSubscriptionUpdated now t sub = t := by
          intro t
          unfold handleSubscriptionUpdated
          rw [hm, hp]
          rfl
        rw [heq, heq]
    | some plan =>
        have heq : ∀ t, handleSubscriptionUpdated now t sub =
            upsertSubscription t now (sub.metadataUserId.getD "")
              (sub.customer.getD "") sub.id plan (mapStripeStatus sub.status)
              (sub.currentPeriodStart * 1000)
              (sub.currentPeriodEnd * 1000) := by
          intro t
          unfold handleSubscriptionUpdated
          rw [hm, hp]
          rfl
        rw [heq, heq]
        exact upsert_idem _ _ _ _ _ _ _ _ _
  · rw [Bool.not_eq_true] at hm
    have heq : ∀ t, handleSubscriptionUpdated now t sub =
        (match selectSingle
            (fun r => r.stripeSubscriptionId == some sub.id) t.subs with
         | none => t
         | some row =>
             if row.userId == "" then t
             else
               match jsPriceToPlan sub.priceId with
               | none => t
               | some planType =>
                   upsertSubscription t now row.userId
                     (sub.customer.getD "") sub.id planType
                     (mapStripeStatus sub.status)
                     (sub.currentPeriodStart * 1000)
                     (sub.currentPeriodEnd * 1000)) := by
      intro t
      unfold handleSubscriptionUpdated
      rw [hm]
      rfl
    cases hsel : selectSingle
        (fun r => r.stripeSubscriptionId == some sub.id) s.subs with
    | none =>
        have hFs : handleSubscriptionUpdated now s sub = s := by
          rw [heq s, hsel]
        rw [hFs]
        exact hFs
    | some row =>
        by_cases hrow : (row.userId == "") = true
        · have hFs : handleSubscriptionUpdated now s sub = s := by
            rw [heq s, hsel]
            show (if (row.userId == "") = true then s else _) = s
            rw [if_pos hrow]
          rw [hFs]
          exact hFs
        · cases hp : jsPriceToPlan sub.priceId with
          | none =>
              have hFs : handleSubscriptionUpdated now s sub = s := by
                rw [heq s, hsel]
                show (if (row.userId == "") = true then s else _) = s
                rw [if_neg hrow, hp]
              rw [hFs]
              exact hFs
          | some plan =>
              obtain ⟨hmem, hq, huniq⟩ := selectSingle_some hsel
              have hFs : handleSubscriptionUpdated now s sub =
                  upsertSubscription s now row.userId
                    (sub.customer.getD "") sub.id plan
                    (mapStripeStatus sub.status)
                    (sub.currentPeriodStart * 1000)
                    (sub.currentPeriodEnd * 1000) := by
                rw [heq s, hsel]
                show (if (row.userId == "") = true then s else _) = _
                rw [if_neg hrow, hp]
              rw [hFs, heq]
              have hany : s.subs.any (fun r => r.userId == row.userId) =
                  true :=
                List.any_eq_true.mpr ⟨row, hmem, by simp⟩
              have hUsubs := @upsert_subs_of_any s now row.userId
                (sub.customer.getD "") sub.id plan
                (mapStripeStatus sub.status)
                (sub.currentPeriodStart * 1000)
                (sub.currentPeriodEnd * 1000) hany
              have hall : ∀ x ∈ (s.subs.map (fun r =>
                  if r.userId == row.userId then
                    SubRow.mk row.userId (some (sub.customer.getD ""))
                      (some sub.id) plan (mapStripeStatus sub.status)
                      (some (sub.currentPeriodStart * 1000))
                      (some (sub.currentPeriodEnd * 1000)) now
                  else r)).filter
                    (fun r => r.stripeSubscriptionId == some sub.id),
                  x = SubRow.mk row.userId (some (sub.customer.getD ""))
                    (some sub.id) plan (mapStripeStatus sub.status)
                    (some (sub.currentPeriodStart * 1000))
                    (some (sub.currentPeriodEnd * 1000)) now := by
                intro x hx
                rw [List.mem_filter] at hx
                obtain ⟨hxm, hxq⟩ := hx
                obtain ⟨y, hy, hyx⟩ := List.mem_map.mp hxm
                by_cases hpy : (y.userId == row.userId) = true
                · rw [if_pos hpy] at hyx
                  exact hyx.symm
                · rw [if_neg hpy] at hyx
                  rw [← hyx] at hxq
                  have hyrow : y = row := huniq y hy hxq
                  rw [hyrow] at hpy
                  exact absurd (by simp) hpy
              cases hfl : (s.subs.map (fun r =>
                  if r.userId == row.userId then
                    SubRow.mk row.userId (some (sub.customer.getD ""))
                      (some sub.id) plan (mapStripeStatus sub.status)
                      (some (sub.currentPeriodStart * 1000))
                      (some (sub.currentPeriodEnd * 1000)) now
                  else r)).filter
                    (fun r => r.stripeSubscriptionId == some sub.id) with
              | nil =>
                  have hselU : selectSingle
                      (fun r => r.stripeSubscriptionId == some sub.id)
                      (upsertSubscription s now row.userId
                        (sub.customer.getD "") sub.id plan
                        (mapStripeStatus sub.status)
                        (sub.currentPeriodStart * 1000)
                        (sub.currentPeriodEnd * 1000)).subs = none := by
                    unfold selectSingle
                    rw [hUsubs, hfl]
                  rw [hselU]
              | cons x xs =>
                  cases xs with
                  | nil =>
                      have hxv : x = SubRow.mk row.userId
                          (some (sub.customer.getD "")) (some sub.id) plan
                          (mapStripeStatus sub.status)
                          (some (sub.currentPeriodStart * 1000))
                          (some (sub.currentPeriodEnd * 1000)) now :=
                        hall x (by rw [hfl]; exact List.mem_singleton_self x)
                      have hselU : selectSingle
                          (fun r => r.stripeSubscriptionId == some sub.id)
                          (upsertSubscription s now row.userId
                            (sub.customer.getD "") sub.id plan
                            (mapStripeStatus sub.status)
                            (sub.currentPeriodStart * 1000)
                            (sub.currentPeriodEnd * 1000)).subs =
                          some (SubRow.mk row.userId
                            (some (sub.customer.getD "")) (some sub.id) plan
                            (mapStripeStatus sub.status)
                            (some (sub.currentPeriodStart * 1000))
                            (some (sub.currentPeriodEnd * 1000)) now) := by
                        unfold selectSingle
                        rw [hUsubs, hfl, hxv]
                      rw [hselU]
                      show (if (row.userId == "") = true then _ else _) = _
                      rw [if_neg hrow, hp]
                      exact upsert_idem _ _ _ _ _ _ _ _ _
                  | cons y ys =>
                      have hselU : selectSingle
                          (fun r => r.stripeSubscriptionId == some sub.id)
                          (upsertSubscription s now row.userId
                            (sub.customer.getD "") sub.id plan
                            (mapStripeStatus sub.status)
                            (sub.currentPeriodStart * 1000)
                            (sub.currentPeriodEnd * 1000)).subs = none := by
                        unfold selectSingle
                        rw [hUsubs, hfl]
                      rw [hselU]

theorem upsert_subs_of_not_any {s : DBState} {now : Int}
    {userId custId subId : String} {plan : PlanType} {st : SubStatus}
    {ps pe : Int}
    (h : s.subs.any (fun r => r.userId == userId) = false) :
    (upsertSubscription s now userId custId subId plan st ps pe).subs =
      s.subs ++ [SubRow.mk userId (some custId) (some subId) plan st
        (some ps) (some pe) now] := by
  unfold upsertSubscription
  show (if _ = true then _ else _) = _
  rw [h]
  rfl

theorem map_keeps_customer {l : List SubRow} {F : SubRow → SubRow}
    (huser : ∀ x, (F x).userId = x.userId)
    {uid : String} {row : SubRow}
    (hfind : l.find? (fun r => r.userId == uid) = some row) :
    (l.map F).find? (fun r => r.userId == uid) = some (F row) := by
  have hinv : ∀ x, ((F x).userId == uid) = (x.userId == uid) := by
    intro x
    rw [huser]
  rw [find?_map_inv F _ hinv l, hfind]
  rfl

theorem upsert_keeps_customer {s : DBState} (now : Int)
    (userId custId subId : String) (plan : PlanType) (st : SubStatus)
    (ps pe : Int) {uid : String} {row : SubRow} {c : String}
    (hfind : findSubRow s uid = some row)
    (hcust : row.stripeCustomerId = some c) :
    ∃ row', findSubRow
        (upsertSubscription s now userId custId subId plan st ps pe) uid =
        some row' ∧ row'.stripeCustomerId.isSome = true := by
  unfold findSubRow at hfind ⊢
  by_cases h : s.subs.any (fun r => r.userId == userId) = true
  · rw [@upsert_subs_of_any s now userId custId subId plan st ps pe h]
    have hinv : ∀ x : SubRow,
        ((if x.userId == userId then
          SubRow.mk userId (some custId) (some subId) plan st (some ps)
            (some pe) now else x).userId == uid) = (x.userId == uid) := by
      intro x
      by_cases hx : (x.userId == userId) = true
      · rw [if_pos hx]
        have hxe : x.userId = userId := by simpa using hx
        rw [hxe]
      · rw [if_neg hx]
    rw [find?_map_inv _ _ hinv s.subs, hfind]
    refine ⟨_, rfl, ?_⟩
    show (if (row.userId == userId) = true then
      SubRow.mk userId (some custId) (some subId) plan st (some ps)
        (some pe) now else row).stripeCustomerId.isSome = true
    by_cases hx : (row.userId == userId) = true
    · rw [if_pos hx]
      rfl
    · rw [if_neg hx]
      rw [hcust]
      rfl
  · rw [Bool.not_eq_true] at h
    rw [upsert_subs_of_not_any h, find?_append_some _ hfind]
    exact ⟨row, rfl, by rw [hcust]; rfl⟩

theorem checkout_shape (env : StripeEnv) (now : Int) (s : DBState)
    (session : CheckoutSession) :
    handleCheckoutCompleted env now s session = s ∨
    ∃ u c si p ps pe, handleCheckoutCompleted env now s session =
      upsertSubscription s now u c si p SubStatus.active ps pe := by
  unfold handleCheckoutCompleted
  by_cases h1 : strTruthy session.subscription = true
  · by_cases h2 : strTruthy (jsOrStr
        (env.retrieve (session.subscription.getD "")).metadataUserId
        session.metadataUserId) = true
    · cases hp : jsPriceToPlan
          (env.retrieve (session.subscription.getD "")).priceId with
      | none =>
          left
          rw [h1, h2]
          rfl
      | some plan =>
          right
          exact ⟨_, _, _, _, _, _, by rw [h1, h2]; rfl⟩
    · rw [Bool.not_eq_true] at h2
      left
      rw [h1, h2]
      rfl
  · rw [Bool.not_eq_true] at h1
    left
    rw [h1]
    rfl

theorem updated_shape (now : Int) (s : DBState) (sub : StripeSub) :
    handleSubscriptionUpdated now s sub = s ∨
    ∃ u c p st ps pe, handleSubscriptionUpdated now s sub =
      upsertSubscription s now u c sub.id p st ps pe := by
  unfold handleSubscriptionUpdated
  by_cases hm : strTruthy sub.metadataUserId = true
  · cases hp : jsPriceToPlan sub.priceId with
    | none =>
        left
        rw [hm]
        rfl
    | some plan =>
        right
        exact ⟨_, _, _, _, _, _, by rw [hm]; rfl⟩
  · rw [Bool.not_eq_true] at hm
    rw [hm]
    cases hsel : selectSingle
        (fun r => r.stripeSubscriptionId == some sub.id) s.subs with
    | none =>
        left
        rfl
    | some row =>
        by_cases hrow : (row.userId == "") = true
        · left
          show (if (row.userId == "") = true then s else _) = s
          rw [if_pos hrow]
        · cases hp : jsPriceToPlan sub.priceId with
          | none =>
              left
              show (if (row.userId == "") = true then s else _) = s
              rw [if_neg hrow]
          | some plan =>
              right
              refine ⟨row.userId, sub.customer.getD "", plan,
                mapStripeStatus sub.status, sub.currentPeriodStart * 1000,
                sub.currentPeriodEnd * 1000, ?_⟩
              show (if (row.userId == "") = true then s else _) = _
              rw [if_neg hrow]

-- ====================================================================
-- Claim C2
-- ====================================================================

/-- C2: applying the same billing event object twice in succession to
the database state, at the same reconciliation time and against the same
processor snapshot, leaves exactly the state produced by applying it
once, for all four handled event kinds and the ignored kinds; this
includes the immediate-deletion path, where the second application
matches no row because the subscription reference was already
cleared. -/
theorem c2_event_idempotent (env : StripeEnv) (now : Int) (s : DBState)
    (e : StripeEventData) :
    applyEvent env now (applyEvent env now s e) e =
      applyEvent env now s e := by
  cases e with
  | checkoutCompleted session =>
      exact handleCheckoutCompleted_idem env now s session
  | subscriptionUpdated sub => exact handleSubscriptionUpdated_idem now s sub
  | subscriptionDeleted sub => exact handleSubscriptionDeleted_idem now s sub
  | paymentFailed invoice => exact handlePaymentFailed_idem now s invoice
  | otherEvent => rfl

-- ====================================================================
-- Claim C3
-- ====================================================================

/-- C3: a subscription-deleted event cancels the matching rows; when the
deletion is immediate the matching rows end as free plan, active status,
cleared subscription reference and cleared period bounds, with user and
customer identities kept; when the deletion is a cancellation at period
end only the status changes to canceled and plan, period bounds,
references and identities are all kept. -/
theorem c3_subscription_deleted (env : StripeEnv) (now : Int)
    (s : DBState) (sub : StripeSub) :
    (sub.cancelAtPeriodEnd = false →
      (applyEvent env now s (StripeEventData.subscriptionDeleted sub)).subs =
        s.subs.map (fun r =>
          if r.stripeSubscriptionId == some sub.id then
            SubRow.mk r.userId r.stripeCustomerId none PlanType.free
              SubStatus.active none none now
          else r)) ∧
    (sub.cancelAtPeriodEnd = true →
      (applyEvent env now s (StripeEventData.subscriptionDeleted sub)).subs =
        s.subs.map (fun r =>
          if r.stripeSubscriptionId == some sub.id then
            SubRow.mk r.userId r.stripeCustomerId r.stripeSubscriptionId
              r.planType SubStatus.canceled r.currentPeriodStart
              r.currentPeriodEnd now
          else r)) := by
  constructor
  · intro hc
    show (handleSubscriptionDeleted now s sub).subs = _
    unfold handleSubscriptionDeleted
    rw [hc]
    show (revertToFreePlan (cancelSubscription s now sub.id) now
      sub.id).subs = _
    unfold revertToFreePlan cancelSubscription
    show List.map _ (List.map _ s.subs) = _
    rw [List.map_map]
    refine List.map_congr_left ?_
    intro r _
    by_cases hq : r.stripeSubscriptionId = some sub.id <;> simp [hq]
  · intro hc
    show (handleSubscriptionDeleted now s sub).subs = _
    unfold handleSubscriptionDeleted
    rw [hc]
    show (cancelSubscription s now sub.id).subs = _
    unfold cancelSubscription
    show List.map _ s.subs = _
    refine List.map_congr_left ?_
    intro r _
    by_cases hq : r.stripeSubscriptionId = some sub.id <;> simp [hq]

/-- Witness for C3 at a concrete one-row state: an immediate deletion
event for a premium active user leaves the row at free plan, active
status, null subscription reference and null period bounds, with the
customer id kept. -/
theorem c3_witness :
    (StripeSub.mk "sub_1" none (some "price_premium_monthly") (some "cus_1")
        "canceled" 100 200 false).cancelAtPeriodEnd = false ∧
    (applyEvent ⟨fun _ => StripeSub.mk "sub_1" none none none "" 0 0 false⟩
        7 ⟨[SubRow.mk "user-1" (some "cus_1") (some "sub_1")
             PlanType.premium SubStatus.active (some 1) (some 2) 0], [], 0⟩
        (StripeEventData.subscriptionDeleted
          (StripeSub.mk "sub_1" none (some "price_premium_monthly")
            (some "cus_1") "canceled" 100 200 false))).subs =
      [SubRow.mk "user-1" (some "cus_1") none PlanType.free
        SubStatus.active none none 7] := by
  refine ⟨rfl, ?_⟩
  rw [(c3_subscription_deleted
    ⟨fun _ => StripeSub.mk "sub_1" none none none "" 0 0 false⟩ 7
    ⟨[SubRow.mk "user-1" (some "cus_1") (some "sub_1") PlanType.premium
        SubStatus.active (some 1) (some 2) 0], [], 0⟩
    (StripeSub.mk "sub_1" none (some "price_premium_monthly") (some "cus_1")
      "canceled" 100 200 false)).1 rfl]
  rfl

-- ====================================================================
-- Claim C4
-- ====================================================================

/-- C4: a webhook request with a missing stripe-signature header, and a
request whose signature verification fails, are both answered with
status 400 and leave the database state, subscriptions and usage ledger
alike, exactly unchanged. -/
theorem c4_unsigned_rejected (env : WebhookEnv) (now : Int) (s : DBState)
    (req : WebhookReq) :
    (req.signature = none → webhookPOST env now s req = (400, s)) ∧
    (∀ sig, req.signature = some sig → env.verify req.body sig = none →
      webhookPOST env now s req = (400, s)) := by
  constructor
  · intro h
    unfold webhookPOST
    rw [h]
  · intro sig hs hv
    unfold webhookPOST
    rw [hs]
    show (match env.verify req.body sig with
      | none => ((400 : Nat), s)
      | some event => (200, applyEvent env.stripeEnv now s event)) =
      (400, s)
    rw [hv]

/-- Witness for C4 at a concrete request and state: the missing header
and the failing verification each produce 400 with the state intact. -/
theorem c4_witness :
    webhookPOST ⟨⟨fun _ => StripeSub.mk "" none none none "" 0 0 false⟩,
        fun _ _ => none⟩ 0
      ⟨[SubRow.mk "user-1" (some "cus_1") (some "sub_1") PlanType.premium
          SubStatus.active (some 1) (some 2) 0], [], 0⟩
      ⟨"payload", none⟩ =
      (400, ⟨[SubRow.mk "user-1" (some "cus_1") (some "sub_1")
          PlanType.premium SubStatus.active (some 1) (some 2) 0], [], 0⟩) ∧
    webhookPOST ⟨⟨fun _ => StripeSub.mk "" none none none "" 0 0 false⟩,
        fun _ _ => none⟩ 0
      ⟨[SubRow.mk "user-1" (some "cus_1") (some "sub_1") PlanType.premium
          SubStatus.active (some 1) (some 2) 0], [], 0⟩
      ⟨"payload", some "bad-signature"⟩ =
      (400, ⟨[SubRow.mk "user-1" (some "cus_1") (some "sub_1")
          PlanType.premium SubStatus.active (some 1) (some 2) 0], [], 0⟩) :=
  ⟨(c4_unsigned_rejected _ 0 _ ⟨"payload", none⟩).1 rfl,
   (c4_unsigned_rejected _ 0 _ ⟨"payload", some "bad-signature"⟩).2
     "bad-signature" rfl rfl⟩

-- ====================================================================
-- Claim C7
-- ====================================================================

/-- C7: a subscription-updated event whose price reference does not
resolve in the plan catalog mapping is dropped without any write: the
reconciler leaves the whole database state unchanged instead of
defaulting the row to some tier, in both the metadata-user-id branch and
the lookup-by-subscription-id branch. -/
theorem c7_unknown_price_rejected (env : StripeEnv) (now : Int)
    (s : DBState) (sub : StripeSub)
    (h : jsPriceToPlan sub.priceId = none) :
    applyEvent env now s (StripeEventData.subscriptionUpdated sub) = s := by
  show handleSubscriptionUpdated now s sub = s
  unfold handleSubscriptionUpdated
  rw [h]
  by_cases hm : strTruthy sub.metadataUserId = true
  · rw [hm]
    rfl
  · rw [Bool.not_eq_true] at hm
    rw [hm]
    cases hsel : selectSingle
        (fun r => r.stripeSubscriptionId == some sub.id) s.subs with
    | none => rfl
    | some row =>
        show (if (row.userId == "") = true then s else s) = s
        exact ite_self s

/-- Witness for C7: an updated event carrying an unknown price id leaves
a concrete premium row byte for byte unchanged. -/
theorem c7_witness :
    applyEvent ⟨fun _ => StripeSub.mk "" none none none "" 0 0 false⟩ 9
      ⟨[SubRow.mk "user-1" (some "cus_1") (some "sub_1") PlanType.premium
          SubStatus.active (some 1) (some 2) 0], [], 0⟩
      (StripeEventData.subscriptionUpdated
        (StripeSub.mk "sub_1" (some "user-1") (some "price_unknown")
          (some "cus_1") "active" 100 200 false)) =
      ⟨[SubRow.mk "user-1" (some "cus_1") (some "sub_1") PlanType.premium
          SubStatus.active (some 1) (some 2) 0], [], 0⟩ :=
  c7_unknown_price_rejected _ 9 _
    (StripeSub.mk "sub_1" (some "user-1") (some "price_unknown")
      (some "cus_1") "active" 100 200 false) (by decide)

-- ====================================================================
-- Claim C10
-- ====================================================================

/-- C10: no reconciler transition clears a stored stripe_customer_id:
whatever event is applied, a user whose row holds a customer reference
still holds one afterwards; and the subscription-deleted path, cancel
followed by the immediate revert, leaves the stripe_customer_id column
of every row exactly as it was. -/
theorem c10_customer_ref_preserved (env : StripeEnv) (now : Int)
    (s : DBState) :
    (∀ (e : StripeEventData) (uid : String) (row : SubRow) (c : String),
      findSubRow s uid = some row → row.stripeCustomerId = some c →
      ∃ row', findSubRow (applyEvent env now s e) uid = some row' ∧
        row'.stripeCustomerId.isSome = true) ∧
    (∀ sub : StripeSub,
      (applyEvent env now s
          (StripeEventData.subscriptionDeleted sub)).subs.map
          (fun r => r.stripeCustomerId) =
        s.subs.map (fun r => r.stripeCustomerId)) := by
  constructor
  · intro e uid row c hfind hcust
    cases e with
    | otherEvent => exact ⟨row, hfind, by rw [hcust]; rfl⟩
    | checkoutCompleted session =>
        show ∃ row', findSubRow (handleCheckoutCompleted env now s session)
          uid = some row' ∧ row'.stripeCustomerId.isSome = true
        rcases checkout_shape env now s session with heq |
          ⟨u, c2, si, p, ps, pe, heq⟩
        · rw [heq]
          exact ⟨row, hfind, by rw [hcust]; rfl⟩
        · rw [heq]
          exact upsert_keeps_customer now u c2 si p SubStatus.active ps pe
            hfind hcust
    | subscriptionUpdated sub =>
        show ∃ row', findSubRow (handleSubscriptionUpdated now s sub)
          uid = some row' ∧ row'.stripeCustomerId.isSome = true
        rcases updated_shape now s sub with heq |
          ⟨u, c2, p, st, ps, pe, heq⟩
        · rw [heq]
          exact ⟨row, hfind, by rw [hcust]; rfl⟩
        · rw [heq]
          exact upsert_keeps_customer now u c2 sub.id p st ps pe hfind hcust
    | paymentFailed invoice =>
        show ∃ row', findSubRow (handlePaymentFailed now s invoice)
          uid = some row' ∧ row'.stripeCustomerId.isSome = true
        by_cases ht : strTruthy invoice.subscription = true
        · have heq : handlePaymentFailed now s invoice =
              DBState.mk (s.subs.map (fun r =>
                if r.stripeSubscriptionId ==
                    some (invoice.subscription.getD "") then
                  { r with status := SubStatus.past_due, updatedAt := now }
                else r)) s.usage s.nextId := by
            unfold handlePaymentFailed
            rw [ht]
            rfl
          rw [heq]
          have huser : ∀ x : SubRow,
              ((if x.stripeSubscriptionId ==
                  some (invoice.subscription.getD "") then
                { x with status := SubStatus.past_due, updatedAt := now }
                else x)).userId = x.userId := by
            intro x
            by_cases hx : (x.stripeSubscriptionId ==
                some (invoice.subscription.getD "")) = true
            · rw [if_pos hx]
            · rw [if_neg hx]
          refine ⟨_, map_keeps_customer huser hfind, ?_⟩
          show (if (row.stripeSubscriptionId ==
              some (invoice.subscription.getD "")) = true then
            { row with status := SubStatus.past_due, updatedAt := now }
            else row).stripeCustomerId.isSome = true
          by_cases hx : (row.stripeSubscriptionId ==
              some (invoice.subscription.getD "")) = true
          · rw [if_pos hx]
            show row.stripeCustomerId.isSome = true
            rw [hcust]
            rfl
          · rw [if_neg hx, hcust]
            rfl
        · rw [Bool.not_eq_true] at ht
          have heq : handlePaymentFailed now s invoice = s := by
            unfold handlePaymentFailed
            rw [ht]
            rfl
          rw [heq]
          exact ⟨row, hfind, by rw [hcust]; rfl⟩
    | subscriptionDeleted sub =>
        show ∃ row', findSubRow (handleSubscriptionDeleted now s sub)
          uid = some row' ∧ row'.stripeCustomerId.isSome = true
        have huser1 : ∀ x : SubRow,
            ((if x.stripeSubscriptionId == some sub.id then
              { x with status := SubStatus.canceled, updatedAt := now }
              else x)).userId = x.userId := by
          intro x
          by_cases hx : (x.stripeSubscriptionId == some sub.id) = true
          · rw [if_pos hx]
          · rw [if_neg hx]
        have hcust1 : ∀ x : SubRow,
            ((if x.stripeSubscriptionId == some sub.id then
              { x with status := SubStatus.canceled, updatedAt := now }
              else x)).stripeCustomerId = x.stripeCustomerId := by
          intro x
          by_cases hx : (x.stripeSubscriptionId == some sub.id) = true
          · rw [if_pos hx]
          · rw [if_neg hx]
        by_cases hc : sub.cancelAtPeriodEnd = true
        · have heq : handleSubscriptionDeleted now s sub =
              cancelSubscription s now sub.id := by
            unfold handleSubscriptionDeleted
            rw [hc]
            rfl
          rw [heq]
          refine ⟨_, map_keeps_customer huser1 hfind, ?_⟩
          rw [hcust1 row, hcust]
          rfl
        · rw [Bool.not_eq_true] at hc
          have heq : handleSubscriptionDeleted now s sub =
              revertToFreePlan (cancelSubscription s now sub.id) now
                sub.id := by
            unfold handleSubscriptionDeleted
            rw [hc]
            rfl
          rw [heq]
          have huser2 : ∀ x : SubRow,
              ((if x.stripeSubscriptionId == some sub.id then
                { x with planType := PlanType.free,
                         status := SubStatus.active,
                         stripeSubscriptionId := none,
                         currentPeriodStart := none,
                         currentPeriodEnd := none, updatedAt := now }
                else x)).userId = x.userId := by
            intro x
            by_cases hx : (x.stripeSubscriptionId == some sub.id) = true
            · rw [if_pos hx]
            · rw [if_neg hx]
          have hcust2 : ∀ x : SubRow,
              ((if x.stripeSubscriptionId == some sub.id then
                { x with planType := PlanType.free,
                         status := SubStatus.active,
                         stripeSubscriptionId := none,
                         currentPeriodStart := none,
                         currentPeriodEnd := none, updatedAt := now }
                else x)).stripeCustomerId = x.stripeCustomerId := by
            intro x
            by_cases hx : (x.stripeSubscriptionId == some sub.id) = true
            · rw [if_pos hx]
            · rw [if_neg hx]
          refine ⟨_, map_keeps_customer huser2
            (map_keeps_customer huser1 hfind), ?_⟩
          rw [hcust2, hcust1, hcust]
          rfl
  · intro sub
    show (handleSubscriptionDeleted now s sub).subs.map
      (fun r => r.stripeCustomerId) = _
    unfold handleSubscriptionDeleted
    by_cases hc : sub.cancelAtPeriodEnd = true
    · rw [hc]
      show (cancelSubscription s now sub.id).subs.map
        (fun r => r.stripeCustomerId) = _
      unfold cancelSubscription
      show List.map _ (List.map _ s.subs) = _
      rw [List.map_map]
      refine List.map_congr_left ?_
      intro r _
      by_cases hq : r.stripeSubscriptionId = some sub.id <;> simp [hq]
    · rw [Bool.not_eq_true] at hc
      rw [hc]
      show (revertToFreePlan (cancelSubscription s now sub.id) now
        sub.id).subs.map (fun r => r.stripeCustomerId) = _
      unfold revertToFreePlan cancelSubscription
      show List.map _ (List.map _ (List.map _ s.subs)) = _
      rw [List.map_map, List.map_map]
      refine List.map_congr_left ?_
      intro r _
      by_cases hq : r.stripeSubscriptionId = some sub.id <;> simp [hq]

/-- Witness for C10: at a concrete one-row premium state, an immediate
deletion keeps the customer reference present on the user row and keeps
the customer column of the table pointwise unchanged. -/
theorem c10_witness :
    (∃ row', findSubRow
        (applyEvent ⟨fun _ => StripeSub.mk "" none none none "" 0 0 false⟩
          7 ⟨[SubRow.mk "user-1" (some "cus_1") (some "sub_1")
              PlanType.premium SubStatus.active (some 1) (some 2) 0], [], 0⟩
          (StripeEventData.subscriptionDeleted
            (StripeSub.mk "sub_1" none none (some "cus_1") "canceled"
              100 200 false))) "user-1" = some row' ∧
      row'.stripeCustomerId.isSome = true) ∧
    (applyEvent ⟨fun _ => StripeSub.mk "" none none none "" 0 0 false⟩
        7 ⟨[SubRow.mk "user-1" (some "cus_1") (some "sub_1")
            PlanType.premium SubStatus.active (some 1) (some 2) 0], [], 0⟩
        (StripeEventData.subscriptionDeleted
          (StripeSub.mk "sub_1" none none (some "cus_1") "canceled"
            100 200 false))).subs.map (fun r => r.stripeCustomerId) =
      ([SubRow.mk "user-1" (some "cus_1") (some "sub_1") PlanType.premium
          SubStatus.active (some 1) (some 2) 0] : List SubRow).map
        (fun r => r.stripeCustomerId) :=
  ⟨(c10_customer_ref_preserved
      ⟨fun _ => StripeSub.mk "" none none none "" 0 0 false⟩ 7
      ⟨[SubRow.mk "user-1" (some "cus_1") (some "sub_1") PlanType.premium
          SubStatus.active (some 1) (some 2) 0], [], 0⟩).1
    (StripeEventData.subscriptionDeleted
      (StripeSub.mk "sub_1" none none (some "cus_1") "canceled" 100 200
        false)) "user-1"
    (SubRow.mk "user-1" (some "cus_1") (some "sub_1") PlanType.premium
      SubStatus.active (some 1) (some 2) 0) "cus_1" rfl rfl,
   (c10_customer_ref_preserved
      ⟨fun _ => StripeSub.mk "" none none none "" 0 0 false⟩ 7
      ⟨[SubRow.mk "user-1" (some "cus_1") (some "sub_1") PlanType.premium
          SubStatus.active (some 1) (some 2) 0], [], 0⟩).2
    (StripeSub.mk "sub_1" none none (some "cus_1") "canceled" 100 200
      false)⟩

-- ====================================================================
-- Claim C1
-- ====================================================================

/-- C1: for a free-plan user whose monthly counters start at zero, the
free limits are 50 for ocr, 3 for export and 10 for ai_assistant; after
n increments with n below the limit, checkUsageLimit answers
allowed true; after exactly limit increments it answers allowed false;
in particular after three export increments the full result is allowed
false, currentUsage 3, limit 3, remaining 0 on the free plan. -/
theorem c1_free_limit_boundary (s : DBState) (userId key : String)
    (f : UsageFeature) (n : Nat) (hwf : WF s)
    (hplan : getUserPlanType s userId = PlanType.free)
    (hzero : ∀ f' : UsageFeature, counterOf s userId key f' = 0) :
    getFeatureLimit PlanType.free f = ENum.fin (freeLimit f) ∧
    (n < freeLimit f →
      ((checkUsageLimit (iterInc s userId key f n) userId key f).1).allowed =
        true) ∧
    ((checkUsageLimit (iterInc s userId key f (freeLimit f)) userId
        key f).1).allowed = false ∧
    (checkUsageLimit (iterInc s userId key UsageFeature.export' 3) userId
        key UsageFeature.export').1 =
      ⟨false, 3, ENum.fin 3, ENum.fin 0, PlanType.free⟩ := by
  have hlim : getFeatureLimit PlanType.free f = ENum.fin (freeLimit f) := by
    cases f <;> rfl
  have hiter : ∀ (g : UsageFeature) (j : Nat),
      counterOf (iterInc s userId key g j) userId key g = j := by
    intro g j
    rw [iterInc_counter hwf userId key g j, hzero g, Nat.zero_add]
  have hplani : ∀ (g : UsageFeature) (j : Nat),
      getUserPlanType (iterInc s userId key g j) userId = PlanType.free := by
    intro g j
    rw [iterInc_plan userId key g j userId, hplan]
  refine ⟨hlim, ?_, ?_, ?_⟩
  · intro hn
    rw [check_free_result (iterInc_wf hwf userId key f n) key f
      (hplani f n), hiter f n]
    show enumLtNat n (getFeatureLimit PlanType.free f) = true
    rw [hlim]
    simp only [enumLtNat, decide_eq_true_eq]
    exact_mod_cast hn
  · rw [check_free_result (iterInc_wf hwf userId key f (freeLimit f)) key f
      (hplani f (freeLimit f)), hiter f (freeLimit f)]
    show enumLtNat (freeLimit f) (getFeatureLimit PlanType.free f) = false
    rw [hlim]
    simp [enumLtNat]
  · rw [check_free_result (iterInc_wf hwf userId key UsageFeature.export' 3)
      key UsageFeature.export' (hplani UsageFeature.export' 3),
      hiter UsageFeature.export' 3]
    rfl

/-- Witness for C1 at a concrete empty database: a user with no
subscription row is on the free plan; the third export increment flips
the export check to denied with the exact quota snapshot, while two
increments still leave it allowed. -/
theorem c1_witness :
    (checkUsageLimit (iterInc ⟨[], [], 0⟩ "user-1" "2024-01-01"
        UsageFeature.export' 3) "user-1" "2024-01-01"
        UsageFeature.export').1 =
      ⟨false, 3, ENum.fin 3, ENum.fin 0, PlanType.free⟩ ∧
    ((checkUsageLimit (iterInc ⟨[], [], 0⟩ "user-1" "2024-01-01"
        UsageFeature.export' 2) "user-1" "2024-01-01"
        UsageFeature.export').1).allowed = true :=
  ⟨(c1_free_limit_boundary ⟨[], [], 0⟩ "user-1" "2024-01-01"
      UsageFeature.export' 2 (by decide) (by decide) (fun _ => rfl)).2.2.2,
   (c1_free_limit_boundary ⟨[], [], 0⟩ "user-1" "2024-01-01"
      UsageFeature.export' 2 (by decide) (by decide) (fun _ => rfl)).2.1
     (by decide)⟩

-- ====================================================================
-- Claim C6
-- ====================================================================

/-- C6: for a user on any paid plan, checkUsageLimit answers allowed
true with currentUsage 0 and the Infinity sentinel as limit, it leaves
the state untouched, and the same answer comes back whatever the usage
ledger holds, so the ledger is neither read nor written. -/
theorem c6_paid_unlimited (s : DBState) (userId key : String)
    (f : UsageFeature)
    (hpaid : isFreePlan (getUserPlanType s userId) = false) :
    checkUsageLimit s userId key f =
      (⟨true, 0, ENum.inf, ENum.inf, getUserPlanType s userId⟩, s) ∧
    ∀ (usage' : List UsageRow) (nid : Nat),
      checkUsageLimit (DBState.mk s.subs usage' nid) userId key f =
        (⟨true, 0, ENum.inf, ENum.inf, getUserPlanType s userId⟩,
         DBState.mk s.subs usage' nid) := by
  refine ⟨check_of_paid key f hpaid, ?_⟩
  intro usage' nid
  have hplan' : getUserPlanType (DBState.mk s.subs usage' nid) userId =
      getUserPlanType s userId :=
    plan_of_subs_eq rfl userId
  rw [check_of_paid key f (by rw [hplan']; exact hpaid), hplan']

/-- Witness for C6: a premium user with a heavily used ledger row is
still allowed with zero reported usage and unlimited quota, and the
state is unchanged. -/
theorem c6_witness :
    checkUsageLimit
      ⟨[SubRow.mk "user-1" (some "cus_1") (some "sub_1") PlanType.premium
          SubStatus.active (some 0) (some 0) 0],
       [UsageRow.mk 0 "user-1" 99 99 99 "2024-01-01"], 1⟩
      "user-1" "2024-01-01" UsageFeature.ocr =
      (⟨true, 0, ENum.inf, ENum.inf, PlanType.premium⟩,
       ⟨[SubRow.mk "user-1" (some "cus_1") (some "sub_1") PlanType.premium
           SubStatus.active (some 0) (some 0) 0],
        [UsageRow.mk 0 "user-1" 99 99 99 "2024-01-01"], 1⟩) :=
  (c6_paid_unlimited
    ⟨[SubRow.mk "user-1" (some "cus_1") (some "sub_1") PlanType.premium
        SubStatus.active (some 0) (some 0) 0],
     [UsageRow.mk 0 "user-1" 99 99 99 "2024-01-01"], 1⟩
    "user-1" "2024-01-01" UsageFeature.ocr (by decide)).1

-- ====================================================================
-- Claim C8
-- ====================================================================

/-- C8: incrementUsage raises exactly the one targeted counter by one
and leaves every other counter of every user, period and feature
unchanged; checkUsageLimit and getMonthlyUsage never change any
counter; a month with no entry gets a fresh all-zero row appended
instead of a reset in place; and the period keys of January and
February 2024 are distinct for every sub-day clock offset, so an
increment on 2024-01-31 and a check on 2024-02-01 touch distinct
entries. -/
theorem c8_counters_monotone (s : DBState) (userId key : String)
    (f : UsageFeature) (hwf : WF s) :
    counterOf (incrementUsage s userId key f) userId key f =
      counterOf s userId key f + 1 ∧
    (∀ (u' k' : String) (f' : UsageFeature),
      ¬(u' = userId ∧ k' = key ∧ f' = f) →
      counterOf (incrementUsage s userId key f) u' k' f' =
        counterOf s u' k' f') ∧
    (∀ (u' k' : String) (f' : UsageFeature),
      counterOf ((checkUsageLimit s userId key f).2) u' k' f' =
        counterOf s u' k' f') ∧
    (∀ (u' k' : String) (f' : UsageFeature),
      counterOf ((getMonthlyUsage s userId key).2) u' k' f' =
        counterOf s u' k' f') ∧
    (s.usage.find? (usageKeyMatch userId key) = none →
      (getOrCreateUsageRecord s userId key).2 =
        DBState.mk s.subs
          (s.usage ++ [UsageRow.mk s.nextId userId 0 0 0 key])
          (s.nextId + 1)) ∧
    (∀ off : Int, -1440 < off → off < 1440 →
      periodKeyDay 2024 1 off ≠ periodKeyDay 2024 2 off) := by
  refine ⟨counter_increment hwf userId key f,
    fun u' k' f' h => counter_increment_frame hwf h,
    fun u' k' f' => check_counter s userId key f u' k' f',
    fun u' k' f' => monthly_counter s userId key u' k' f', ?_, ?_⟩
  · intro hnone
    have hsel : selectSingle (usageKeyMatch userId key) s.usage = none := by
      rw [selectSingle_usage hwf]; exact hnone
    rw [getOrCreate_of_none hsel]
  · intro off h1 h2
    by_cases hle : off ≤ 0
    · rw [periodKeyDay_nonpos 2024 1 h1 hle,
        periodKeyDay_nonpos 2024 2 h1 hle]
      decide
    · have hpos : 0 < off := by omega
      rw [periodKeyDay_pos 2024 1 hpos h2, periodKeyDay_pos 2024 2 hpos h2]
      decide

/-- Witness for C8 on a concrete state: one increment raises the ocr
counter from zero to one, and the January and February period keys
differ at the offset of Japan Standard Time. -/
theorem c8_witness :
    counterOf (incrementUsage ⟨[], [], 0⟩ "user-1" "2024-01-01"
        UsageFeature.ocr) "user-1" "2024-01-01" UsageFeature.ocr =
      counterOf ⟨[], [], 0⟩ "user-1" "2024-01-01" UsageFeature.ocr + 1 ∧
    periodKeyDay 2024 1 540 ≠ periodKeyDay 2024 2 540 :=
  ⟨(c8_counters_monotone ⟨[], [], 0⟩ "user-1" "2024-01-01"
      UsageFeature.ocr (by decide)).1,
   (c8_counters_monotone ⟨[], [], 0⟩ "user-1" "2024-01-01"
      UsageFeature.ocr (by decide)).2.2.2.2.2 540 (by decide) (by decide)⟩

-- ====================================================================
-- Claim C9
-- ====================================================================

/-- C9 counterexample: in an environment whose local clock runs 540
minutes ahead of UTC, as Japan Standard Time does, the period key
serialized for January 2024 is the epoch day of 2023-12-31, the last
day of the previous month, not the first day of the month, refuting the
claim that the stored period_start is the first of the month for every
timezone offset. -/
theorem c9_counterexample :
    periodKeyDay 2024 1 540 ≠ epochDay 2024 1 1 ∧
    periodKeyDay 2024 1 540 = epochDay 2023 12 31 := by
  constructor
  · decide
  · decide

/-- C9 amended: the period_start date stored by getOrCreateUsageRecord
equals the first day of the calendar month exactly when the local clock
is at or behind UTC by less than a day; when the clock is ahead of UTC
by less than a day the stored date is the day before, the last day of
the previous month. -/
theorem c9_period_key (y m : Nat) (off : Int) :
    (-1440 < off → off ≤ 0 → periodKeyDay y m off = epochDay y m 1) ∧
    (0 < off → off < 1440 → periodKeyDay y m off = epochDay y m 1 - 1) :=
  ⟨fun h1 h2 => periodKeyDay_nonpos y m h1 h2,
   fun h1 h2 => periodKeyDay_pos y m h1 h2⟩

/-- Witness for C9 at concrete offsets: minus 300 minutes, Eastern
Time, keeps the first of May 2024; plus 540 minutes, Japan Standard
Time, slips to the previous day for January 2024. -/
theorem c9_witness :
    (-1440 < (-300 : Int) ∧ (-300 : Int) ≤ 0 ∧
      periodKeyDay 2024 5 (-300) = epochDay 2024 5 1) ∧
    (0 < (540 : Int) ∧ (540 : Int) < 1440 ∧
      periodKeyDay 2024 1 540 = epochDay 2024 1 1 - 1) :=
  ⟨⟨by decide, by decide,
    (c9_period_key 2024 5 (-300)).1 (by decide) (by decide)⟩,
   ⟨by decide, by decide,
    (c9_period_key 2024 1 540).2 (by decide) (by decide)⟩⟩

-- ====================================================================
-- C5: increment only after success, swallowed increment error,
-- locally advanced snapshot
-- ====================================================================

theorem incrementUsageTry_true (s : DBState) (u k : String)
    (f : UsageFeature) :
    incrementUsageTry true s u k f = (getOrCreateUsageRecord s u k).2 := rfl

theorem incrementUsageTry_false (s : DBState) (u k : String)
    (f : UsageFeature) :
    incrementUsageTry false s u k f = incrementUsage s u k f := rfl

/-- Every run of the OCR endpoint either answers a non-success response
and leaves the state equal to the original state or to the state of the
usage check, or answers ok with the locally advanced snapshot and the
state of the best-effort increment after the check. -/
theorem ocr_shape (env : OcrEnv) (b : Bool) (key : String) (s : DBState) :
    ((∀ info, (ocrPOST env b key s).1 ≠ EndpointResp.ok info) ∧
      ((ocrPOST env b key s).2 = s ∨
       (ocrPOST env b key s).2 =
         (checkUsageLimit s (env.authUser.getD "") key
           UsageFeature.ocr).2)) ∨
    ocrPOST env b key s =
      (EndpointResp.ok (localSnapshot
        (checkUsageLimit s (env.authUser.getD "") key UsageFeature.ocr).1),
       incrementUsageTry b
         ((checkUsageLimit s (env.authUser.getD "") key UsageFeature.ocr).2)
         (env.authUser.getD "") key UsageFeature.ocr) := by
  by_cases h0 : env.authUser.isSome = false
  · have heq : ocrPOST env b key s = (EndpointResp.unauthorized, s) := by
      unfold ocrPOST; rw [if_pos h0]
    exact Or.inl ⟨fun info h => by rw [heq] at h; simp at h,
      Or.inl (by rw [heq])⟩
  · by_cases h1 : (checkUsageLimit s (env.authUser.getD "") key
        UsageFeature.ocr).1.allowed = false
    · have heq : ocrPOST env b key s =
          (EndpointResp.quotaExceeded (checkUsageLimit s
             (env.authUser.getD "") key UsageFeature.ocr).1,
           (checkUsageLimit s (env.authUser.getD "") key
             UsageFeature.ocr).2) := by
        unfold ocrPOST; rw [if_neg h0, if_pos h1]
      exact Or.inl ⟨fun info h => by rw [heq] at h; simp at h,
        Or.inr (by rw [heq])⟩
    · by_cases h2 : env.bodyParses = false
      · have heq : ocrPOST env b key s =
            (EndpointResp.serverErr,
             (checkUsageLimit s (env.authUser.getD "") key
               UsageFeature.ocr).2) := by
          unfold ocrPOST; rw [if_neg h0, if_neg h1, if_pos h2]
        exact Or.inl ⟨fun info h => by rw [heq] at h; simp at h,
          Or.inr (by rw [heq])⟩
      · by_cases h3 : strTruthy env.imageBase64 = false
        · have heq : ocrPOST env b key s =
              (EndpointResp.badRequest,
               (checkUsageLimit s (env.authUser.getD "") key
                 UsageFeature.ocr).2) := by
            unfold ocrPOST; rw [if_neg h0, if_neg h1, if_neg h2, if_pos h3]
          exact Or.inl ⟨fun info h => by rw [heq] at h; simp at h,
            Or.inr (by rw [heq])⟩
        · by_cases h4 : env.openaiKeySet = false
          · have heq : ocrPOST env b key s =
                (EndpointResp.serverErr,
                 (checkUsageLimit s (env.authUser.getD "") key
                   UsageFeature.ocr).2) := by
              unfold ocrPOST
              rw [if_neg h0, if_neg h1, if_neg h2, if_neg h3, if_pos h4]
            exact Or.inl ⟨fun info h => by rw [heq] at h; simp at h,
              Or.inr (by rw [heq])⟩
          · by_cases h5 : env.apiThrows.isSome = true
            · have heq : ocrPOST env b key s =
                  (EndpointResp.apiErr (ocrCatchStatus
                     (env.apiThrows.getD none)),
                   (checkUsageLimit s (env.authUser.getD "") key
                     UsageFeature.ocr).2) := by
                unfold ocrPOST
                rw [if_neg h0, if_neg h1, if_neg h2, if_neg h3, if_neg h4,
                  if_pos h5]
              exact Or.inl ⟨fun info h => by rw [heq] at h; simp at h,
                Or.inr (by rw [heq])⟩
            · by_cases h6 : env.content.isSome = false
              · have heq : ocrPOST env b key s =
                    (EndpointResp.serverErr,
                     (checkUsageLimit s (env.authUser.getD "") key
                       UsageFeature.ocr).2) := by
                  unfold ocrPOST
                  rw [if_neg h0, if_neg h1, if_neg h2, if_neg h3, if_neg h4,
                    if_neg h5, if_pos h6]
                exact Or.inl ⟨fun info h => by rw [heq] at h; simp at h,
                  Or.inr (by rw [heq])⟩
              · by_cases h7 : env.parsedOk = false
                · have heq : ocrPOST env b key s =
                      (EndpointResp.serverErr,
                       (checkUsageLimit s (env.authUser.getD "") key
                         UsageFeature.ocr).2) := by
                    unfold ocrPOST
                    rw [if_neg h0, if_neg h1, if_neg h2, if_neg h3,
                      if_neg h4, if_neg h5, if_neg h6, if_pos h7]
                  exact Or.inl ⟨fun info h => by rw [heq] at h; simp at h,
                    Or.inr (by rw [heq])⟩
                · refine Or.inr ?_
                  unfold ocrPOST
                  rw [if_neg h0, if_neg h1, if_neg h2, if_neg h3, if_neg h4,
                    if_neg h5, if_neg h6, if_neg h7]

/-- The response of the OCR endpoint does not depend on whether the
ledger update write fails. -/
theorem ocr_resp_flag (env : OcrEnv) (key : String) (s : DBState) :
    (ocrPOST env true key s).1 = (ocrPOST env false key s).1 := by
  unfold ocrPOST
  by_cases h0 : env.authUser.isSome = false
  · rw [if_pos h0, if_pos h0]
  · rw [if_neg h0, if_neg h0]
    by_cases h1 : (checkUsageLimit s (env.authUser.getD "") key
        UsageFeature.ocr).1.allowed = false
    · rw [if_pos h1, if_pos h1]
    · rw [if_neg h1, if_neg h1]
      by_cases h2 : env.bodyParses = false
      · rw [if_pos h2, if_pos h2]
      · rw [if_neg h2, if_neg h2]
        by_cases h3 : strTruthy env.imageBase64 = false
        · rw [if_pos h3, if_pos h3]
        · rw [if_neg h3, if_neg h3]
          by_cases h4 : env.openaiKeySet = false
          · rw [if_pos h4, if_pos h4]
          · rw [if_neg h4, if_neg h4]
            by_cases h5 : env.apiThrows.isSome = true
            · rw [if_pos h5, if_pos h5]
            · rw [if_neg h5, if_neg h5]
              by_cases h6 : env.content.isSome = false
              · rw [if_pos h6, if_pos h6]
              · rw [if_neg h6, if_neg h6]
                by_cases h7 : env.parsedOk = false
                · rw [if_pos h7, if_pos h7]
                · rw [if_neg h7, if_neg h7]

/-- Every run of the AI assistant endpoint either answers a non-success
response and leaves the state equal to the original state or to the
state of the usage check, or answers ok with the locally advanced
snapshot and the state of the best-effort increment after the check. -/
theorem ai_shape (env : AiEnv) (b : Bool) (key : String) (s : DBState) :
    ((∀ info, (aiPOST env b key s).1 ≠ EndpointResp.ok info) ∧
      ((aiPOST env b key s).2 = s ∨
       (aiPOST env b key s).2 =
         (checkUsageLimit s (env.authUser.getD "") key
           UsageFeature.ai_assistant).2)) ∨
    aiPOST env b key s =
      (EndpointResp.ok (localSnapshot
        (checkUsageLimit s (env.authUser.getD "") key
          UsageFeature.ai_assistant).1),
       incrementUsageTry b
         ((checkUsageLimit s (env.authUser.getD "") key
            UsageFeature.ai_assistant).2)
         (env.authUser.getD "") key UsageFeature.ai_assistant) := by
  by_cases h0 : env.authUser.isSome = false
  · have heq : aiPOST env b key s = (EndpointResp.unauthorized, s) := by
      unfold aiPOST; rw [if_pos h0]
    exact Or.inl ⟨fun info h => by rw [heq] at h; simp at h,
      Or.inl (by rw [heq])⟩
  · by_cases h1 : (checkUsageLimit s (env.authUser.getD "") key
        UsageFeature.ai_assistant).1.allowed = false
    · have heq : aiPOST env b key s =
          (EndpointResp.quotaExceeded (checkUsageLimit s
             (env.authUser.getD "") key UsageFeature.ai_assistant).1,
           (checkUsageLimit s (env.authUser.getD "") key
             UsageFeature.ai_assistant).2) := by
        unfold aiPOST; rw [if_neg h0, if_pos h1]
      exact Or.inl ⟨fun info h => by rw [heq] at h; simp at h,
        Or.inr (by rw [heq])⟩
    · by_cases h2 : env.bodyParses = false
      · have heq : aiPOST env b key s =
            (EndpointResp.serverErr,
             (checkUsageLimit s (env.authUser.getD "") key
               UsageFeature.ai_assistant).2) := by
          unfold aiPOST; rw [if_neg h0, if_neg h1, if_pos h2]
        exact Or.inl ⟨fun info h => by rw [heq] at h; simp at h,
          Or.inr (by rw [heq])⟩
      · by_cases h3 : (strTrim (env.message.getD "")).length = 0
        · have heq : aiPOST env b key s =
              (EndpointResp.badRequest,
               (checkUsageLimit s (env.authUser.getD "") key
                 UsageFeature.ai_assistant).2) := by
            unfold aiPOST; rw [if_neg h0, if_neg h1, if_neg h2, if_pos h3]
          exact Or.inl ⟨fun info h => by rw [heq] at h; simp at h,
            Or.inr (by rw [heq])⟩
        · by_cases h4 : 1000 < (env.message.getD "").length
          · have heq : aiPOST env b key s =
                (EndpointResp.badRequest,
                 (checkUsageLimit s (env.authUser.getD "") key
                   UsageFeature.ai_assistant).2) := by
              unfold aiPOST
              rw [if_neg h0, if_neg h1, if_neg h2, if_neg h3, if_pos h4]
            exact Or.inl ⟨fun info h => by rw [heq] at h; simp at h,
              Or.inr (by rw [heq])⟩
          · by_cases h5 : env.openaiKeySet = false
            · have heq : aiPOST env b key s =
                  (EndpointResp.serverErr,
                   (checkUsageLimit s (env.authUser.getD "") key
                     UsageFeature.ai_assistant).2) := by
                unfold aiPOST
                rw [if_neg h0, if_neg h1, if_neg h2, if_neg h3, if_neg h4,
                  if_pos h5]
              exact Or.inl ⟨fun info h => by rw [heq] at h; simp at h,
                Or.inr (by rw [heq])⟩
            · by_cases h6 : env.apiThrows.isSome = true
              · have heq : aiPOST env b key s =
                    (EndpointResp.apiErr (aiCatchStatus
                       (env.apiThrows.getD none)),
                     (checkUsageLimit s (env.authUser.getD "") key
                       UsageFeature.ai_assistant).2) := by
                  unfold aiPOST
                  rw [if_neg h0, if_neg h1, if_neg h2, if_neg h3, if_neg h4,
                    if_neg h5, if_pos h6]
                exact Or.inl ⟨fun info h => by rw [heq] at h; simp at h,
                  Or.inr (by rw [heq])⟩
              · by_cases h7 : env.content.isSome = false
                · have heq : aiPOST env b key s =
                      (EndpointResp.serverErr,
                       (checkUsageLimit s (env.authUser.getD "") key
                         UsageFeature.ai_assistant).2) := by
                    unfold aiPOST
                    rw [if_neg h0, if_neg h1, if_neg h2, if_neg h3,
                      if_neg h4, if_neg h5, if_neg h6, if_pos h7]
                  exact Or.inl ⟨fun info h => by rw [heq] at h; simp at h,
                    Or.inr (by rw [heq])⟩
                · refine Or.inr ?_
                  unfold aiPOST
                  rw [if_neg h0, if_neg h1, if_neg h2, if_neg h3, if_neg h4,
                    if_neg h5, if_neg h6, if_neg h7]

/-- The response of the AI assistant endpoint does not depend on whether
the ledger update write fails. -/
theorem ai_resp_flag (env : AiEnv) (key : String) (s : DBState) :
    (aiPOST env true key s).1 = (aiPOST env false key s).1 := by
  unfold aiPOST
  by_cases h0 : env.authUser.isSome = false
  · rw [if_pos h0, if_pos h0]
  · rw [if_neg h0, if_neg h0]
    by_cases h1 : (checkUsageLimit s (env.authUser.getD "") key
        UsageFeature.ai_assistant).1.allowed = false
    · rw [if_pos h1, if_pos h1]
    · rw [if_neg h1, if_neg h1]
      by_cases h2 : env.bodyParses = false
      · rw [if_pos h2, if_pos h2]
      · rw [if_neg h2, if_neg h2]
        by_cases h3 : (strTrim (env.message.getD "")).length = 0
        · rw [if_pos h3, if_pos h3]
        · rw [if_neg h3, if_neg h3]
          by_cases h4 : 1000 < (env.message.getD "").length
          · rw [if_pos h4, if_pos h4]
          · rw [if_neg h4, if_neg h4]
            by_cases h5 : env.openaiKeySet = false
            · rw [if_pos h5, if_pos h5]
            · rw [if_neg h5, if_neg h5]
              by_cases h6 : env.apiThrows.isSome = true
              · rw [if_pos h6, if_pos h6]
              · rw [if_neg h6, if_neg h6]
                by_cases h7 : env.content.isSome = false
                · rw [if_pos h7, if_pos h7]
                · rw [if_neg h7, if_neg h7]

/-- C5: in both metered endpoints (OCR and AI assistant), the usage
counter is incremented only after the external operation has succeeded:
whenever the response is not a success, every counter of every user,
period and feature is unchanged; the response is independent of whether
the ledger update write fails, so a thrown increment error is swallowed;
and a success response carries the snapshot computed locally from the
pre-call check as {currentUsage+1, limit, remaining-1} without a second
ledger read, with the final state being exactly the increment applied
after the check when the write succeeds, and all counters unchanged when
it fails. -/
theorem c5_metered_endpoints (oenv : OcrEnv) (aenv : AiEnv)
    (key : String) (s : DBState) :
    ((∀ b : Bool, (∀ info, (ocrPOST oenv b key s).1 ≠ EndpointResp.ok info) →
        ∀ u' k' f', counterOf (ocrPOST oenv b key s).2 u' k' f' =
          counterOf s u' k' f') ∧
     (ocrPOST oenv true key s).1 = (ocrPOST oenv false key s).1 ∧
     (∀ uid b info, oenv.authUser = some uid →
        (ocrPOST oenv b key s).1 = EndpointResp.ok info →
        info = localSnapshot
          (checkUsageLimit s uid key UsageFeature.ocr).1 ∧
        (b = true → ∀ u' k' f',
          counterOf (ocrPOST oenv b key s).2 u' k' f' =
            counterOf s u' k' f') ∧
        (b = false → (ocrPOST oenv b key s).2 =
          incrementUsage ((checkUsageLimit s uid key UsageFeature.ocr).2)
            uid key UsageFeature.ocr))) ∧
    ((∀ b : Bool, (∀ info, (aiPOST aenv b key s).1 ≠ EndpointResp.ok info) →
        ∀ u' k' f', counterOf (aiPOST aenv b key s).2 u' k' f' =
          counterOf s u' k' f') ∧
     (aiPOST aenv true key s).1 = (aiPOST aenv false key s).1 ∧
     (∀ uid b info, aenv.authUser = some uid →
        (aiPOST aenv b key s).1 = EndpointResp.ok info →
        info = localSnapshot
          (checkUsageLimit s uid key UsageFeature.ai_assistant).1 ∧
        (b = true → ∀ u' k' f',
          counterOf (aiPOST aenv b key s).2 u' k' f' =
            counterOf s u' k' f') ∧
        (b = false → (aiPOST aenv b key s).2 =
          incrementUsage
            ((checkUsageLimit s uid key UsageFeature.ai_assistant).2)
            uid key UsageFeature.ai_assistant))) := by
  refine ⟨⟨?_, ocr_resp_flag oenv key s, ?_⟩,
    ⟨?_, ai_resp_flag aenv key s, ?_⟩⟩
  · intro b hno u' k' f'
    rcases ocr_shape oenv b key s with ⟨hne, hst⟩ | heq
    · rcases hst with h | h
      · rw [h]
      · rw [h]
        exact check_counter s (oenv.authUser.getD "") key
          UsageFeature.ocr u' k' f'
    · exact absurd (congrArg Prod.fst heq) (hno _)
  · intro uid b info hA hok
    rcases ocr_shape oenv b key s with ⟨hne, _⟩ | heq
    · exact absurd hok (hne info)
    · rw [hA] at heq
      have h2 := hok.symm.trans (congrArg Prod.fst heq)
      injection h2 with h3
      refine ⟨h3, ?_, ?_⟩
      · intro hb u' k' f'
        subst hb
        have hst : (ocrPOST oenv true key s).2 =
            incrementUsageTry true
              ((checkUsageLimit s uid key UsageFeature.ocr).2)
              uid key UsageFeature.ocr := by
          rw [heq]
          rfl
        rw [hst, incrementUsageTry_true, getOrCreate_counter, check_counter]
      · intro hb
        subst hb
        have hst : (ocrPOST oenv false key s).2 =
            incrementUsageTry false
              ((checkUsageLimit s uid key UsageFeature.ocr).2)
              uid key UsageFeature.ocr := by
          rw [heq]
          rfl
        rw [hst, incrementUsageTry_false]
  · intro b hno u' k' f'
    rcases ai_shape aenv b key s with ⟨hne, hst⟩ | heq
    · rcases hst with h | h
      · rw [h]
      · rw [h]
        exact check_counter s (aenv.authUser.getD "") key
          UsageFeature.ai_assistant u' k' f'
    · exact absurd (congrArg Prod.fst heq) (hno _)
  · intro uid b info hA hok
    rcases ai_shape aenv b key s with ⟨hne, _⟩ | heq
    · exact absurd hok (hne info)
    · rw [hA] at heq
      have h2 := hok.symm.trans (congrArg Prod.fst heq)
      injection h2 with h3
      refine ⟨h3, ?_, ?_⟩
      · intro hb u' k' f'
        subst hb
        have hst : (aiPOST aenv true key s).2 =
            incrementUsageTry true
              ((checkUsageLimit s uid key UsageFeature.ai_assistant).2)
              uid key UsageFeature.ai_assistant := by
          rw [heq]
          rfl
        rw [hst, incrementUsageTry_true, getOrCreate_counter, check_counter]
      · intro hb
        subst hb
        have hst : (aiPOST aenv false key s).2 =
            incrementUsageTry false
              ((checkUsageLimit s uid key UsageFeature.ai_assistant).2)
              uid key UsageFeature.ai_assistant := by
          rw [heq]
          rfl
        rw [hst, incrementUsageTry_false]

/-- Concrete instance of C5: the OCR endpoint with a missing API key
answers an error and the counter stays untouched, and the AI assistant
endpoint with everything in place answers the locally advanced snapshot
with the state being the post-check increment. -/
theorem c5_witness :
    (∀ info, (ocrPOST ⟨some "u", true, some "img", false, none, some "c",
        true⟩ true "2024-01-01" ⟨[], [], 0⟩).1 ≠ EndpointResp.ok info) ∧
    counterOf (ocrPOST ⟨some "u", true, some "img", false, none, some "c",
        true⟩ true "2024-01-01" ⟨[], [], 0⟩).2 "u" "2024-01-01"
        UsageFeature.ocr =
      counterOf ⟨[], [], 0⟩ "u" "2024-01-01" UsageFeature.ocr ∧
    (aiPOST ⟨some "u", true, some "hi", true, none, some "c"⟩ false
        "2024-01-01" ⟨[], [], 0⟩).1 =
      EndpointResp.ok (localSnapshot (checkUsageLimit ⟨[], [], 0⟩ "u"
        "2024-01-01" UsageFeature.ai_assistant).1) ∧
    (aiPOST ⟨some "u", true, some "hi", true, none, some "c"⟩ false
        "2024-01-01" ⟨[], [], 0⟩).2 =
      incrementUsage ((checkUsageLimit ⟨[], [], 0⟩ "u" "2024-01-01"
        UsageFeature.ai_assistant).2) "u" "2024-01-01"
        UsageFeature.ai_assistant := by
  have hno : ∀ info, (ocrPOST ⟨some "u", true, some "img", false, none,
      some "c", true⟩ true "2024-01-01" ⟨[], [], 0⟩).1 ≠
      EndpointResp.ok info := by
    intro info h
    rw [show (ocrPOST ⟨some "u", true, some "img", false, none, some "c",
        true⟩ true "2024-01-01" ⟨[], [], 0⟩).1 = EndpointResp.serverErr
      from rfl] at h
    exact EndpointResp.noConfusion h
  have hok : (aiPOST ⟨some "u", true, some "hi", true, none, some "c"⟩
      false "2024-01-01" ⟨[], [], 0⟩).1 =
      EndpointResp.ok (localSnapshot (checkUsageLimit ⟨[], [], 0⟩ "u"
        "2024-01-01" UsageFeature.ai_assistant).1) := by decide
  refine ⟨hno, ?_, hok, ?_⟩
  · exact (c5_metered_endpoints ⟨some "u", true, some "img", false, none,
      some "c", true⟩ ⟨some "u", true, some "hi", true, none, some "c"⟩
      "2024-01-01" ⟨[], [], 0⟩).1.1 true hno "u" "2024-01-01"
      UsageFeature.ocr
  · exact ((c5_metered_endpoints ⟨some "u", true, some "img", false, none,
      some "c", true⟩ ⟨some "u", true, some "hi", true, none, some "c"⟩
      "2024-01-01" ⟨[], [], 0⟩).2.2.2 "u" false
      (localSnapshot (checkUsageLimit ⟨[], [], 0⟩ "u" "2024-01-01"
        UsageFeature.ai_assistant).1) rfl hok).2.2 rfl
